import Mathlib

/-!
Verification of the VEI router twins (tickets, calendar, ERP, database),
the connector policy gate/runtime, and the corpus generator, against their
natural-language specification.  Python code is shallowly embedded: machine
integers become `Int`/`Nat`, dictionaries become association lists, mutation
becomes explicit state passing, and `raise` becomes `Except.error`.
-/

set_option autoImplicit false

namespace VEI

/-! ## Python string and integer helpers

These model the CPython string/integer primitives the router uses:
`str.startswith`, `str.split(":", 1)[1]`, and `int(str)`.  `int(str)` is
modelled for optionally signed ASCII decimal strings; CPython's additional
acceptance of surrounding whitespace, underscore digit grouping and
non-ASCII digits is out of scope (no claim depends on those inputs). -/

/-- Value of an ASCII digit string read left to right in base 10. -/
def decimalFold (l : List Char) : Nat :=
  l.foldl (fun a c => 10 * a + (c.toNat - 48)) 0

/-- Fuel-driven digit expansion; `fuel > n` always suffices. -/
def natDecimalCharsAux : Nat → Nat → List Char
  | 0, _ => []
  | fuel + 1, n =>
    if n < 10 then [Nat.digitChar n]
    else natDecimalCharsAux fuel (n / 10) ++ [Nat.digitChar (n % 10)]

/-- Digit list of `n` in decimal, most significant first (CPython decimal
formatting of a nonnegative integer, as used by f-strings). -/
def natDecimalChars (n : Nat) : List Char :=
  natDecimalCharsAux (n + 1) n

/-- `pre.isPrefixOf s` as a model of Python `s.startswith(pre)`. -/
def pyStartsWith (s pre : List Char) : Bool :=
  pre.isPrefixOf s

/-- Everything after the first `:`; models `s.split(":", 1)[1]` (callers
always establish that a colon is present first). -/
def splitAfterColon : List Char → List Char
  | [] => []
  | c :: rest => if c = ':' then rest else splitAfterColon rest

/-- All characters are ASCII digits and there is at least one. -/
def pyDigitsVal (l : List Char) : Option Nat :=
  if !l.isEmpty && l.all (·.isDigit) then some (decimalFold l) else none

/-- Model of CPython `int(str)`: optional `+`/`-` sign then ASCII digits;
anything else raises `ValueError` (here: `none`). -/
def pyIntParse (l : List Char) : Option Int :=
  match l with
  | [] => none
  | c :: rest =>
    if c = '-' then (pyDigitsVal rest).map (fun v => -(v : Int))
    else if c = '+' then (pyDigitsVal rest).map (fun v => (v : Int))
    else (pyDigitsVal (c :: rest)).map (fun v => (v : Int))

/-! ## Pagination core

`_normalize_limit`, `_decode_cursor`, `_encode_cursor` and `_page_rows` are
textually identical across `router/tickets.py`, `router/calendar.py`,
`router/erp.py` and `router/database.py` (the error wrapper differs per
service but always carries the `invalid_cursor` code); they are embedded
once.  `TicketsSim.list` (tickets.py:104-120) and `CalendarSim.list_events`
inline the exact `_page_rows` computation. -/

/-- `_normalize_limit(limit, default=default, max_limit=max_limit)`:
`None` gives the default, values below 1 clamp to 1, otherwise the limit is
capped at `max_limit`. -/
def normalize_limit (limit : Option Int) (default maxLimit : Int) : Int :=
  match limit with
  | none => default
  | some l => if l < 1 then 1 else min maxLimit l

/-- `_decode_cursor(cursor)`: empty/absent cursors mean offset 0; otherwise
the cursor must start with `ofs:` and the rest must parse via `int(...)`;
the parsed offset is clamped below at 0. -/
def decode_cursor (cursor : Option String) : Except String Nat :=
  match cursor with
  | none => Except.ok 0
  | some c =>
    if c.data = [] then Except.ok 0
    else if ¬ pyStartsWith c.data "ofs:".data then Except.error "invalid_cursor"
    else
      match pyIntParse (splitAfterColon c.data) with
      | none => Except.error "invalid_cursor"
      | some v => Except.ok (max 0 v).toNat

/-- `_encode_cursor(offset)` = `f"ofs:{max(0, int(offset))}"`. -/
def encode_cursor (offset : Int) : String :=
  ⟨"ofs:".data ++ natDecimalChars (max 0 offset).toNat⟩

/-- Shape of the paginated response `{rows, count, total, next_cursor,
has_more}` (the service-specific `rows_key` name is not modelled). -/
structure PageResult (α : Type) where
  rows : List α
  count : Nat
  total : Nat
  next_cursor : Option String
  has_more : Bool
  deriving Repr, DecidableEq

/-- The slice/next-cursor computation of `_page_rows` once the cursor has
been decoded to `start` and the limit normalized to `pl`:
`rows[start : start + pl]` with `next_cursor` present iff more rows remain. -/
def page_rows_at {α : Type} (rows : List α) (pl : Nat) (start : Nat) :
    PageResult α :=
  let sliced := (rows.drop start).take pl
  { rows := sliced
    count := sliced.length
    total := rows.length
    next_cursor :=
      if start + pl < rows.length then some (encode_cursor (start + pl : Nat))
      else none
    has_more := start + pl < rows.length }

/-- `_page_rows(rows, key=…, limit=…, cursor=…)` with the tickets/erp/db
list default limit 25 and max 200. -/
def page_rows {α : Type} (rows : List α) (limit : Option Int)
    (cursor : Option String) : Except String (PageResult α) := do
  let start ← decode_cursor cursor
  pure (page_rows_at rows (normalize_limit limit 25 200).toNat start)

/-- A client walk over a list endpoint: issue the query (same `rows`,
same `limit`), follow `next_cursor` until it is absent.  `fuel` bounds the
recursion; `rows.length + 1` is always enough. -/
def walk_pages {α : Type} (rows : List α) (limit : Option Int) :
    Nat → Option String → List (PageResult α)
  | 0, _ => []
  | fuel + 1, cursor =>
    match page_rows rows limit cursor with
    | Except.error _ => []
    | Except.ok p =>
      match p.next_cursor with
      | none => [p]
      | some c => p :: walk_pages rows limit fuel (some c)

/-! ## Database twin (`router/database.py`) -/

/-- Shape of `DatabaseSim.query`'s response. -/
structure DbQueryResult (α : Type) where
  table : String
  rows : List α
  count : Nat
  total : Nat
  offset : Nat
  next_cursor : Option String
  has_more : Bool
  deriving Repr, DecidableEq

/-- `DatabaseSim.query(table, …)` pagination path (database.py:102-135).
`tableRows` is the table's row list after the filter/sort/projection steps,
which are identity when `filters`, `sort_by` and `columns` are omitted (the
filter DSL does not interact with pagination and is not embedded).  In the
source `limit` has the signature default `20`, modelled by `none ↦ 20`;
`start` is the decoded cursor when a truthy cursor is given, otherwise
`max(0, offset)`. -/
def DatabaseSim.query {α : Type} (table : String) (tableRows : List α)
    (limit : Option Int) (offset : Int) (cursor : Option String) :
    Except String (DbQueryResult α) := do
  let total := tableRows.length
  let start ←
    match cursor with
    | some c =>
      if c.data ≠ [] then decode_cursor (some c)
      else pure (max 0 offset).toNat
    | none => pure (max 0 offset).toNat
  let page_limit := (normalize_limit (some (limit.getD 20)) 20 200).toNat
  let endIdx := start + page_limit
  let sliced := (tableRows.drop start).take page_limit
  let next_cursor :=
    if endIdx < total then some (encode_cursor (endIdx : Int)) else none
  pure { table := table, rows := sliced, count := sliced.length,
         total := total, offset := start, next_cursor := next_cursor,
         has_more := next_cursor.isSome }

/-! ## Tickets twin (`router/tickets.py`) -/

/-- Python `s.strip().lower()` (ASCII scope): drop surrounding whitespace,
lowercase each character. -/
def pyStripLower (s : String) : String :=
  ⟨((s.data.dropWhile Char.isWhitespace).reverse.dropWhile
      Char.isWhitespace).reverse.map Char.toLower⟩

/-- Python `s.lower()` (ASCII scope). -/
def pyLower (s : String) : String :=
  ⟨s.data.map Char.toLower⟩

/-- Python `s.upper()` (ASCII scope). -/
def pyUpper (s : String) : String :=
  ⟨s.data.map Char.toUpper⟩

/-- Python `s.strip().upper()` (ASCII scope): drop surrounding whitespace,
uppercase each character. -/
def pyStripUpper (s : String) : String :=
  ⟨((s.data.dropWhile Char.isWhitespace).reverse.dropWhile
      Char.isWhitespace).reverse.map Char.toUpper⟩

/-- Python `str(x)` for an optional string, as applied by the list filters
to `row.get(...)` values: a stored `None` renders as `"None"`. -/
def pyStrOpt : Option String → String
  | none => "None"
  | some s => s

/-- Python substring containment `needle in hay`: some suffix of `hay`
starts with `needle`. -/
def pyContains (needle : List Char) : List Char → Bool
  | [] => needle.isEmpty
  | c :: rest => needle.isPrefixOf (c :: rest) || pyContains needle rest

/-- Stable insertion into a sorted list: `a` goes before the first `b` with
`le a b`, so equal-key elements keep their original relative order. -/
def pyInsertLe {α : Type} (le : α → α → Bool) (a : α) : List α → List α
  | [] => [a]
  | b :: rest => if le a b then a :: b :: rest else b :: pyInsertLe le a rest

/-- Python `list.sort(key=...)` is a stable sort; stability plus the key
order determine the output uniquely, so stable insertion sort computes
exactly CPython Timsort's result.  `reverse=True` reverses the key
comparison while keeping stability (documented CPython behaviour). -/
def pySortBy {α : Type} (le : α → α → Bool) : List α → List α
  | [] => []
  | a :: rest => pyInsertLe le a (pySortBy le rest)

/-- Association-list update modelling Python dict assignment `d[k] = v`
(overwrite in place, else append; insertion order preserved). -/
def alUpdate {β : Type} (k : String) (v : β) :
    List (String × β) → List (String × β)
  | [] => [(k, v)]
  | (k', v') :: rest =>
    if k' = k then (k, v) :: rest else (k', v') :: alUpdate k v rest

/-- Modelled from the spec: a ticket history entry, a dict with a `status`
key and optional `update` / `comment` keys (`vei/world/scenario.py` is not
under src/; shape per tickets.py usage and spec §3). -/
structure HistEntry where
  status : String
  update : Option String := none
  comment : Option String := none
  deriving Repr, DecidableEq

/-- Modelled from the spec: the `Ticket` record of `vei/world/scenario.py`
(not under src/), fields per spec §3 and their use in tickets.py. -/
structure Ticket where
  ticket_id : String
  title : String
  status : String
  assignee : Option String := none
  description : Option String := none
  history : List HistEntry := []
  deriving Repr, DecidableEq

/-- A ticket comment record (tickets.py `add_comment`). -/
structure TicketComment where
  comment_id : String
  author : String
  body : String
  created_ms : Int
  deriving Repr, DecidableEq

/-- Sidecar metadata kept per ticket in `TicketsSim.metadata`. -/
structure TicketMeta where
  priority : String
  severity : String
  labels : List String
  comments : List TicketComment
  created_ms : Int
  updated_ms : Int
  deriving Repr, DecidableEq

/-- Mutable state of `TicketsSim`. -/
structure TicketsState where
  tickets : List (String × Ticket)
  metadata : List (String × TicketMeta)
  clock_ms : Int
  ticket_seq : Nat
  deriving Repr, DecidableEq

/-- `TicketsSim._now_ms`: bump the private clock and return it. -/
def TicketsSim.now_ms (st : TicketsState) : TicketsState × Int :=
  ({ st with clock_ms := st.clock_ms + 1 }, st.clock_ms + 1)

/-- `TicketsSim._meta`: `metadata.setdefault(ticket_id, {...})`.  CPython
evaluates the default dict — including its two `_now_ms()` calls — before
`setdefault` runs, so the clock advances by 2 even when the entry exists. -/
def TicketsSim.meta (st : TicketsState) (ticket_id : String) :
    TicketsState × TicketMeta :=
  let (st1, t1) := TicketsSim.now_ms st
  let (st2, t2) := TicketsSim.now_ms st1
  let d : TicketMeta :=
    { priority := "P3", severity := "medium", labels := [], comments := [],
      created_ms := t1, updated_ms := t2 }
  match st2.metadata.lookup ticket_id with
  | some m => (st2, m)
  | none => ({ st2 with metadata := alUpdate ticket_id d st2.metadata }, d)

/-- `TicketsSim._VALID_STATUSES`. -/
def TicketsSim.VALID_STATUSES : List String :=
  ["open", "in_progress", "blocked", "resolved", "closed"]

/-- `TicketsSim._ALLOWED_TRANSITIONS` as a function; unknown keys give the
empty set (`dict.get(current, set())`). -/
def TicketsSim.ALLOWED_TRANSITIONS (s : String) : List String :=
  if s = "open" then ["in_progress", "blocked", "resolved", "closed"]
  else if s = "in_progress" then ["blocked", "resolved", "closed"]
  else if s = "blocked" then ["open", "in_progress", "resolved", "closed"]
  else if s = "resolved" then ["closed", "open", "in_progress"]
  else if s = "closed" then ["open"]
  else []

/-- Result payload of `TicketsSim.transition`. -/
structure TransitionResult where
  ticket_id : String
  status : String
  deriving Repr, DecidableEq

/-- `TicketsSim.transition(ticket_id, status)` (tickets.py:212-228).
Unknown ticket and non-member target status raise before any check; a
target that differs from the current status and is not in the transition
table raises `invalid_transition`; otherwise the status is set, a history
entry appended, and `updated_ms` refreshed (`_now_ms` for the assignment
right-hand side runs before `_meta`'s own eager clock bumps). -/
def TicketsSim.transition (st : TicketsState) (ticket_id status : String) :
    TicketsState × Except String TransitionResult :=
  match st.tickets.lookup ticket_id with
  | none => (st, Except.error "unknown_ticket")
  | some ticket =>
    let target := pyStripLower status
    if ¬ target ∈ TicketsSim.VALID_STATUSES then
      (st, Except.error "invalid_ticket_status")
    else
      let current := pyStripLower ticket.status
      if target ≠ current ∧ ¬ target ∈ TicketsSim.ALLOWED_TRANSITIONS current
      then (st, Except.error "invalid_transition")
      else
        let ticket1 :=
          { ticket with
            status := target,
            history := ticket.history ++ [{ status := target }] }
        let (st1, now) := TicketsSim.now_ms st
        let (st2, m) := TicketsSim.meta st1 ticket_id
        let st3 := { st2 with
          metadata := alUpdate ticket_id { m with updated_ms := now }
            st2.metadata }
        let st4 := { st3 with tickets := alUpdate ticket_id ticket1 st3.tickets }
        (st4, Except.ok { ticket_id := ticket_id, status := target })

/-- Concrete tickets state: one ticket `TCK-1` with status `open`. -/
def ticketsStateC1 : TicketsState :=
  { tickets := [("TCK-1",
      { ticket_id := "TCK-1", title := "Laptop request", status := "open",
        history := [{ status := "open" }] })],
    metadata := [("TCK-1",
      { priority := "P3", severity := "medium", labels := [], comments := [],
        created_ms := 1700000200001, updated_ms := 1700000200001 })],
    clock_ms := 1700000200001,
    ticket_seq := 2 }

/-- Row payload built by `TicketsSim._ticket_payload` (tickets.py:256-271). -/
structure TicketPayload where
  ticket_id : String
  title : String
  status : String
  assignee : Option String
  description : Option String
  history : List HistEntry
  priority : String
  severity : String
  labels : List String
  comment_count : Nat
  created_ms : Int
  updated_ms : Int
  deriving Repr, DecidableEq

/-- `TicketsSim._ticket_payload(ticket)` (tickets.py:256-271): builds the
row dict; its `_meta` call advances the private clock by 2 (eager
`setdefault` default) even when the metadata entry already exists. -/
def TicketsSim.ticket_payload (st : TicketsState) (ticket : Ticket) :
    TicketsState × TicketPayload :=
  let (st1, m) := TicketsSim.meta st ticket.ticket_id
  (st1,
   { ticket_id := ticket.ticket_id, title := ticket.title,
     status := ticket.status, assignee := ticket.assignee,
     description := ticket.description, history := ticket.history,
     priority := m.priority, severity := m.severity, labels := m.labels,
     comment_count := m.comments.length, created_ms := m.created_ms,
     updated_ms := m.updated_ms })

/-- The row-building loop of `TicketsSim.list` (tickets.py:52): a payload
for every stored ticket, threading the clock mutation of each `_meta`
call. -/
def TicketsSim.build_payloads :
    TicketsState → List (String × Ticket) → TicketsState × List TicketPayload
  | st, [] => (st, [])
  | st, (_, t) :: rest =>
    let (st1, p) := TicketsSim.ticket_payload st t
    let (st2, ps) := TicketsSim.build_payloads st1 rest
    (st2, p :: ps)

/-- The filter pipeline of `TicketsSim.list` (tickets.py:53-81): status,
assignee and priority filters (each skipped for a falsy argument: `None`
or the empty string) and the title/description substring query.
`row.get("assignee", "")` and `row.get("description", "")` find the stored
value even when it is `None`, so a `None` field is compared as Python
`str(None) = "None"`. -/
def TicketsSim.list_filtered (rows : List TicketPayload)
    (status assignee priority query : Option String) : List TicketPayload :=
  let r1 :=
    match status with
    | none => rows
    | some s =>
      if s.data = [] then rows
      else rows.filter (fun row => pyLower row.status == pyStripLower s)
  let r2 :=
    match assignee with
    | none => r1
    | some a =>
      if a.data = [] then r1
      else r1.filter (fun row =>
        pyStripLower (pyStrOpt row.assignee) == pyStripLower a)
  let r3 :=
    match priority with
    | none => r2
    | some p =>
      if p.data = [] then r2
      else r2.filter (fun row =>
        pyStripUpper row.priority == pyStripUpper p)
  match query with
  | none => r3
  | some q =>
    if (pyStripLower q).data = [] then r3
    else r3.filter (fun row =>
      pyContains (pyStripLower q).data (pyLower row.title).data
      || pyContains (pyStripLower q).data
           (pyLower (pyStrOpt row.description)).data)

/-- The sort-key comparison of `TicketsSim.list` (tickets.py:83-89) for a
resolved `sort_field`: timestamp fields compare as integers, the string
fields lexicographically by code point (Python `str` order, which Lean's
`String` order matches on ASCII payloads); any other field name has
already fallen back to `updated_ms`. -/
def TicketsSim.sort_le (field : String) (a b : TicketPayload) : Bool :=
  if field = "created_ms" then decide (a.created_ms ≤ b.created_ms)
  else if field = "priority" then decide (a.priority ≤ b.priority)
  else if field = "status" then decide (a.status ≤ b.status)
  else if field = "title" then decide (a.title ≤ b.title)
  else decide (a.updated_ms ≤ b.updated_ms)

/-- The sort of `TicketsSim.list` (tickets.py:83-89): `sort_by` outside
the allowed set falls back to `updated_ms`; `reverse` is
`sort_dir.lower() != "asc"`, with stability preserved. -/
def TicketsSim.list_sorted (rows : List TicketPayload)
    (sort_by sort_dir : String) : List TicketPayload :=
  let field :=
    if sort_by = "updated_ms" ∨ sort_by = "created_ms" ∨ sort_by = "priority"
        ∨ sort_by = "status" ∨ sort_by = "title"
    then sort_by else "updated_ms"
  if pyLower sort_dir = "asc" then
    pySortBy (TicketsSim.sort_le field) rows
  else
    pySortBy (fun a b => TicketsSim.sort_le field b a) rows

/-- The `is_legacy` test of `TicketsSim.list` (tickets.py:91-100): every
filter argument absent and the default sort. -/
def TicketsSim.list_is_legacy (status assignee priority query : Option String)
    (limit : Option Int) (cursor : Option String)
    (sort_by sort_dir : String) : Bool :=
  status.isNone && assignee.isNone && priority.isNone && query.isNone &&
    limit.isNone && cursor.isNone && (sort_by == "updated_ms") &&
    (sort_dir == "desc")

/-- `TicketsSim.list` returns a bare row list on the legacy path and the
paginated `{tickets, count, total, next_cursor, has_more}` envelope
otherwise. -/
inductive TicketListResult where
  | legacy (rows : List TicketPayload)
  | page (p : PageResult TicketPayload)
  deriving Repr, DecidableEq

/-- The filtered-and-sorted row list of `TicketsSim.list` — pure once the
payload building has run, so it is re-read as a function of the input
state. -/
def TicketsSim.list_rows (st : TicketsState)
    (status assignee priority query : Option String)
    (sort_by sort_dir : String) : List TicketPayload :=
  TicketsSim.list_sorted
    (TicketsSim.list_filtered (TicketsSim.build_payloads st st.tickets).2
      status assignee priority query)
    sort_by sort_dir

/-- `TicketsSim.list(status, assignee, priority, query, limit, cursor,
sort_by, sort_dir)` (tickets.py:40-120).  The payload loop runs — and
advances the private clock via `_meta` — before `_decode_cursor` is
called, so an invalid cursor raises only after the clock has moved.  The
pure row pipeline is written through `list_rows` (a repeated
`build_payloads` projection of the same input state, observationally the
single run of the source). -/
def TicketsSim.list (st : TicketsState)
    (status assignee priority query : Option String) (limit : Option Int)
    (cursor : Option String) (sort_by sort_dir : String) :
    TicketsState × Except String TicketListResult :=
  if TicketsSim.list_is_legacy status assignee priority query limit cursor
      sort_by sort_dir then
    ((TicketsSim.build_payloads st st.tickets).1,
     Except.ok (TicketListResult.legacy
       (TicketsSim.list_rows st status assignee priority query
         sort_by sort_dir)))
  else
    match decode_cursor cursor with
    | Except.error e =>
      ((TicketsSim.build_payloads st st.tickets).1, Except.error e)
    | Except.ok start =>
      ((TicketsSim.build_payloads st st.tickets).1,
       Except.ok (TicketListResult.page
         (page_rows_at
           (TicketsSim.list_rows st status assignee priority query
             sort_by sort_dir)
           (normalize_limit limit 25 200).toNat start)))

/-! ## Calendar twin (`router/calendar.py`) -/

/-- Modelled from the spec: the `CalendarEvent` record of
`vei/world/scenario.py` (not under src/), fields per spec §3 and their use
in calendar.py. -/
structure CalendarEvent where
  event_id : String
  title : String
  start_ms : Int
  end_ms : Int
  attendees : Option (List String) := none
  location : Option String := none
  description : Option String := none
  deriving Repr, DecidableEq

/-- Sidecar metadata kept per event in `CalendarSim.metadata`. -/
structure CalMeta where
  status : String
  organizer : String
  version : Int
  created_ms : Int
  updated_ms : Int
  cancel_reason : Option String
  deriving Repr, DecidableEq

/-- Mutable state of `CalendarSim`. -/
structure CalendarState where
  events : List (String × CalendarEvent)
  responses : List (String × List (String × String))
  metadata : List (String × CalMeta)
  clock_ms : Int
  event_seq : Nat
  deriving Repr, DecidableEq

/-- `CalendarSim._now_ms`. -/
def CalendarSim.now_ms (st : CalendarState) : CalendarState × Int :=
  ({ st with clock_ms := st.clock_ms + 1 }, st.clock_ms + 1)

/-- `CalendarSim._meta`: `metadata.setdefault(event_id, {...})`; as in the
tickets twin, the default dict's two `_now_ms()` calls run eagerly, so the
clock advances by 2 even when the entry exists. -/
def CalendarSim.meta (st : CalendarState) (event_id : String) :
    CalendarState × CalMeta :=
  let (st1, t1) := CalendarSim.now_ms st
  let (st2, t2) := CalendarSim.now_ms st1
  let d : CalMeta :=
    { status := "CONFIRMED", organizer := "system", version := 1,
      created_ms := t1, updated_ms := t2, cancel_reason := none }
  match st2.metadata.lookup event_id with
  | some m => (st2, m)
  | none => ({ st2 with metadata := alUpdate event_id d st2.metadata }, d)

/-- Result payload of `CalendarSim.cancel_event`. -/
structure CancelResult where
  event_id : String
  status : String
  changed : Bool
  deriving Repr, DecidableEq

/-- `CalendarSim.cancel_event(event_id, reason)` (calendar.py:191-204).
Unknown event raises; an already-`CANCELED` event returns
`changed := false` without touching its metadata; otherwise the status
becomes `CANCELED`, `cancel_reason` is set (`reason or "manual_cancel"`:
`None` and `""` both fall back), the version is bumped and `updated_ms`
refreshed. -/
def CalendarSim.cancel_event (st : CalendarState) (event_id : String)
    (reason : Option String) : CalendarState × Except String CancelResult :=
  match st.events.lookup event_id with
  | none => (st, Except.error "unknown_event")
  | some _ =>
    let (st1, m) := CalendarSim.meta st event_id
    if m.status = "CANCELED" then
      (st1, Except.ok
        { event_id := event_id, status := "CANCELED", changed := false })
    else
      let reason1 :=
        match reason with
        | none => "manual_cancel"
        | some r => if r.data = [] then "manual_cancel" else r
      let (st2, now) := CalendarSim.now_ms st1
      let m1 :=
        { m with
          status := "CANCELED",
          cancel_reason := some reason1,
          version := m.version + 1,
          updated_ms := now }
      ({ st2 with metadata := alUpdate event_id m1 st2.metadata },
       Except.ok { event_id := event_id, status := "CANCELED", changed := true })

/-- Concrete calendar state: one event `EVT-1` already canceled. -/
def calendarStateC10 : CalendarState :=
  { events := [("EVT-1",
      { event_id := "EVT-1", title := "Vendor sync", start_ms := 0,
        end_ms := 3600000 })],
    responses := [("EVT-1", [])],
    metadata := [("EVT-1",
      { status := "CANCELED", organizer := "agent", version := 2,
        created_ms := 1700000100001, updated_ms := 1700000100002,
        cancel_reason := some "manual_cancel" })],
    clock_ms := 1700000100002,
    event_seq := 2 }

/-- Row payload built by `CalendarSim._event_payload`
(calendar.py:224-241). -/
structure EventPayload where
  event_id : String
  title : String
  start_ms : Int
  end_ms : Int
  attendees : List String
  location : Option String
  description : Option String
  status : String
  organizer : String
  version : Int
  created_ms : Int
  updated_ms : Int
  cancel_reason : Option String
  responses : List (String × String)
  deriving Repr, DecidableEq

/-- `CalendarSim._event_payload(evt)` (calendar.py:224-241): its `_meta`
call advances the private clock by 2 (eager `setdefault` default) even
when the metadata entry already exists; `attendees` is
`list(evt.attendees or [])`. -/
def CalendarSim.event_payload (st : CalendarState) (evt : CalendarEvent) :
    CalendarState × EventPayload :=
  let (st1, m) := CalendarSim.meta st evt.event_id
  (st1,
   { event_id := evt.event_id, title := evt.title, start_ms := evt.start_ms,
     end_ms := evt.end_ms, attendees := evt.attendees.getD [],
     location := evt.location, description := evt.description,
     status := m.status, organizer := m.organizer, version := m.version,
     created_ms := m.created_ms, updated_ms := m.updated_ms,
     cancel_reason := m.cancel_reason,
     responses := (st1.responses.lookup evt.event_id).getD [] })

/-- The row-building loop of `CalendarSim.list_events` (calendar.py:46): a
payload for every stored event, threading the clock mutation of each
`_meta` call. -/
def CalendarSim.build_payloads :
    CalendarState → List (String × CalendarEvent) →
      CalendarState × List EventPayload
  | st, [] => (st, [])
  | st, (_, e) :: rest =>
    let (st1, p) := CalendarSim.event_payload st e
    let (st2, ps) := CalendarSim.build_payloads st1 rest
    (st2, p :: ps)

/-- The filter pipeline of `CalendarSim.list_events` (calendar.py:47-70):
attendee and status filters (each skipped for a falsy argument) and the
start/end window bounds (applied whenever the argument is not `None`). -/
def CalendarSim.list_filtered (rows : List EventPayload)
    (attendee status : Option String)
    (starts_after_ms ends_before_ms : Option Int) : List EventPayload :=
  let r1 :=
    match attendee with
    | none => rows
    | some a =>
      if a.data = [] then rows
      else rows.filter (fun row =>
        row.attendees.any (fun x => pyLower x == pyStripLower a))
  let r2 :=
    match status with
    | none => r1
    | some s =>
      if s.data = [] then r1
      else r1.filter (fun row => pyUpper row.status == pyStripUpper s)
  let r3 :=
    match starts_after_ms with
    | none => r2
    | some v => r2.filter (fun row => decide (v ≤ row.start_ms))
  match ends_before_ms with
  | none => r3
  | some v => r3.filter (fun row => decide (row.end_ms ≤ v))

/-- The sort of `CalendarSim.list_events` (calendar.py:72-73): by
`start_ms`, descending iff `sort_dir.lower() == "desc"`, stable. -/
def CalendarSim.list_sorted (rows : List EventPayload) (sort_dir : String) :
    List EventPayload :=
  if pyLower sort_dir = "desc" then
    pySortBy (fun a b => decide (b.start_ms ≤ a.start_ms)) rows
  else
    pySortBy (fun a b => decide (a.start_ms ≤ b.start_ms)) rows

/-- The `is_legacy` test of `CalendarSim.list_events` (calendar.py:75-83):
every filter argument absent and the default sort direction. -/
def CalendarSim.list_is_legacy (attendee status : Option String)
    (starts_after_ms ends_before_ms : Option Int) (limit : Option Int)
    (cursor : Option String) (sort_dir : String) : Bool :=
  attendee.isNone && status.isNone && starts_after_ms.isNone &&
    ends_before_ms.isNone && limit.isNone && cursor.isNone &&
    (sort_dir == "asc")

/-- `CalendarSim.list_events` returns a bare row list on the legacy path
and the paginated `{events, count, total, next_cursor, has_more}` envelope
otherwise. -/
inductive EventListResult where
  | legacy (rows : List EventPayload)
  | page (p : PageResult EventPayload)
  deriving Repr, DecidableEq

/-- The filtered-and-sorted row list of `CalendarSim.list_events` — pure
once the payload building has run, so it is re-read as a function of the
input state. -/
def CalendarSim.list_rows (st : CalendarState)
    (attendee status : Option String)
    (starts_after_ms ends_before_ms : Option Int) (sort_dir : String) :
    List EventPayload :=
  CalendarSim.list_sorted
    (CalendarSim.list_filtered (CalendarSim.build_payloads st st.events).2
      attendee status starts_after_ms ends_before_ms)
    sort_dir

/-- `CalendarSim.list_events(attendee, status, starts_after_ms,
ends_before_ms, limit, cursor, sort_dir)` (calendar.py:35-103).  The
payload loop runs — and advances the private clock via `_meta` — before
`_decode_cursor` is called, so an invalid cursor raises only after the
clock has moved.  The pure row pipeline is written through `list_rows` (a
repeated `build_payloads` projection of the same input state,
observationally the single run of the source); the non-legacy tail inlines
exactly the `_page_rows` computation with default limit 25. -/
def CalendarSim.list_events (st : CalendarState)
    (attendee status : Option String)
    (starts_after_ms ends_before_ms : Option Int) (limit : Option Int)
    (cursor : Option String) (sort_dir : String) :
    CalendarState × Except String EventListResult :=
  if CalendarSim.list_is_legacy attendee status starts_after_ms
      ends_before_ms limit cursor sort_dir then
    ((CalendarSim.build_payloads st st.events).1,
     Except.ok (EventListResult.legacy
       (CalendarSim.list_rows st attendee status starts_after_ms
         ends_before_ms sort_dir)))
  else
    match decode_cursor cursor with
    | Except.error e =>
      ((CalendarSim.build_payloads st st.events).1, Except.error e)
    | Except.ok start =>
      ((CalendarSim.build_payloads st st.events).1,
       Except.ok (EventListResult.page
         (page_rows_at
           (CalendarSim.list_rows st attendee status starts_after_ms
             ends_before_ms sort_dir)
           (normalize_limit limit 25 200).toNat start)))

/-! ## ERP twin (`router/erp.py`)

Money is embedded directly as integer cents (spec §3: "Money is stored in
integer cents"; the source keeps dollar floats produced by
`_cents_to_money` and re-derives cents with `_money_to_cents`, an exact
round trip for integer-cent values).  PO/invoice line records keep the
fields the embedded operations read (`item_id`, `qty`); `line_no`, `desc`
and the per-line price/amount are not read by `receive_goods` or
`match_three_way`. -/

/-- A PO/invoice/receipt line as read by the ERP tools. -/
structure ErpLine where
  item_id : String
  qty : Int
  deriving Repr, DecidableEq

/-- The `last_three_way_match` stamp written onto a PO. -/
structure ThreeWayStamp where
  invoice_id : String
  receipt_id : Option String
  status : String
  time_ms : Int
  deriving Repr, DecidableEq

/-- A purchase order record. -/
structure ErpPo where
  id : String
  vendor : String
  currency : String
  status : String
  lines : List ErpLine
  amount_cents : Int
  created_ms : Int
  updated_ms : Int
  received_qty_by_item : List (String × Int)
  last_three_way_match : Option ThreeWayStamp := none
  deriving Repr, DecidableEq

/-- An invoice record. -/
structure ErpInvoice where
  id : String
  po_id : String
  vendor : String
  status : String
  lines : List ErpLine
  amount_cents : Int
  paid_cents : Int
  time_ms : Int
  updated_ms : Int
  deriving Repr, DecidableEq

/-- A goods receipt record. -/
structure ErpReceipt where
  id : String
  po_id : String
  lines : List ErpLine
  time_ms : Int
  deriving Repr, DecidableEq

/-- Mutable state of `ErpSim` (`clock_ms` mirrors `bus.clock_ms`, which
these tools read but do not advance). -/
structure ErpState where
  pos : List (String × ErpPo)
  invoices : List (String × ErpInvoice)
  receipts : List (String × ErpReceipt)
  po_seq : Nat
  inv_seq : Nat
  rcpt_seq : Nat
  clock_ms : Int
  deriving Repr, DecidableEq

/-- The dict comprehension `{str(l["item_id"]): int(l["qty"]) for l in
lines}`: later duplicates overwrite earlier ones. -/
def linesQtyDict (lines : List ErpLine) : List (String × Int) :=
  lines.foldl (fun d ln => alUpdate ln.item_id ln.qty d) []

/-- Python `d.get(k, 0)`. -/
def dictGet (d : List (String × Int)) (k : String) : Int :=
  (d.lookup k).getD 0

/-- Decimal rendering of a counter, as in `f"RCPT-{seq}"`. -/
def natDecimal (n : Nat) : String :=
  ⟨natDecimalChars n⟩

/-- Result payload of `ErpSim.receive_goods`. -/
structure ReceiveResult where
  id : String
  po_status : String
  deriving Repr, DecidableEq

/-- The receipt-line validation loop of `receive_goods`: reject items not
on the PO (`unknown_item`) and cumulative quantities above the ordered
quantity (`qty_exceeds_po`); otherwise accumulate the received map. -/
def ErpSim.receive_goods_loop (item_to_ordered : List (String × Int)) :
    List ErpLine → List (String × Int) → Except String (List (String × Int))
  | [], received => Except.ok received
  | ln :: rest, received =>
    if (item_to_ordered.lookup ln.item_id).isNone then
      Except.error "unknown_item"
    else
      let new_total := dictGet received ln.item_id + ln.qty
      if new_total > dictGet item_to_ordered ln.item_id then
        Except.error "qty_exceeds_po"
      else
        ErpSim.receive_goods_loop item_to_ordered rest
          (alUpdate ln.item_id new_total received)

/-- `ErpSim.receive_goods(po_id, lines)` (erp.py:151-198).  Note the
receipt id is drawn and `_rcpt_seq` incremented before the quantity
checks run, so a failed call still consumes an id. -/
def ErpSim.receive_goods (st : ErpState) (po_id : String)
    (lines : List ErpLine) : ErpState × Except String ReceiveResult :=
  match st.pos.lookup po_id with
  | none => (st, Except.error "unknown_po")
  | some po =>
    let rcpt_id := "RCPT-" ++ natDecimal st.rcpt_seq
    let st1 := { st with rcpt_seq := st.rcpt_seq + 1 }
    let item_to_ordered := linesQtyDict po.lines
    match ErpSim.receive_goods_loop item_to_ordered lines
        po.received_qty_by_item with
    | Except.error e => (st1, Except.error e)
    | Except.ok received =>
      let rcpt : ErpReceipt :=
        { id := rcpt_id, po_id := po_id, lines := lines,
          time_ms := st.clock_ms }
      let all_received := item_to_ordered.all
        (fun p => decide (dictGet received p.1 ≥ p.2))
      let po1 :=
        { po with
          received_qty_by_item := received,
          status := if all_received then "RECEIVED" else "PARTIALLY_RECEIVED",
          updated_ms := st.clock_ms }
      ({ st1 with
          receipts := alUpdate rcpt_id rcpt st1.receipts,
          pos := alUpdate po_id po1 st1.pos },
       Except.ok { id := rcpt_id, po_status := po1.status })

/-- One quantity-mismatch entry of `match_three_way`. -/
structure QtyMismatch where
  item_id : String
  po : Int
  invoice : Int
  received : Int
  deriving Repr, DecidableEq

/-- Result payload of `ErpSim.match_three_way`. -/
structure MatchResult where
  status : String
  amount_ok : Bool
  qty_mismatches : List QtyMismatch
  po_id : String
  invoice_id : String
  receipt_id : Option String
  deriving Repr, DecidableEq

/-- The item set `set(po_qty) | set(inv_qty)` iterated by
`match_three_way`.  CPython iterates a hash set in an
implementation-defined order; the embedding fixes first-occurrence order,
and the theorems below only use membership. -/
def ErpSim.match_items (po_qty inv_qty : List (String × Int)) : List String :=
  (po_qty.map Prod.fst ++ inv_qty.map Prod.fst).dedup

/-- The per-item failure test of `match_three_way`:
`(pq != iq) or (rcpt is not None and iq > rq)`. -/
def ErpSim.qty_fails (po_qty inv_qty rcpt_qty : List (String × Int))
    (rcptPresent : Bool) (it : String) : Bool :=
  decide (dictGet po_qty it ≠ dictGet inv_qty it)
    || (rcptPresent && decide (dictGet inv_qty it > dictGet rcpt_qty it))

/-- `ErpSim.match_three_way(po_id, invoice_id, receipt_id)`
(erp.py:301-352).  A missing PO or invoice raises `unknown_ref`; the
receipt lookup is guarded by `if receipt_id` (falsy for `None` and `""`)
and a supplied-but-unknown receipt id silently degrades to no receipt.
`amount_ok` compares integer cents within 1; items failing the quantity
test are listed; `status` is MATCH iff `amount_ok` and no mismatches; the
PO is stamped with `last_three_way_match` and a fresh `updated_ms`. -/
def ErpSim.rcptLookup (st : ErpState) (receipt_id : Option String) :
    Option ErpReceipt :=
  match receipt_id with
  | some r => if r.data = [] then none else st.receipts.lookup r
  | none => none

/-- Lines of the optional receipt (`rcpt.get("lines", []) if rcpt else []`). -/
def ErpSim.rcptLines (rcpt? : Option ErpReceipt) : List ErpLine :=
  match rcpt? with
  | some r => r.lines
  | none => []

/-- `amount_ok = abs(po_amount_c - inv_amount_c) <= 1` in cents. -/
def ErpSim.match_amount_ok (po : ErpPo) (inv : ErpInvoice) : Bool :=
  decide ((po.amount_cents - inv.amount_cents).natAbs ≤ 1)

/-- The `qty_mismatches` list of `match_three_way`: every item of
`set(po_qty) | set(inv_qty)` failing the per-item test, with its three
quantities. -/
def ErpSim.match_mismatches (st : ErpState) (po : ErpPo) (inv : ErpInvoice)
    (receipt_id : Option String) : List QtyMismatch :=
  let rcpt? := ErpSim.rcptLookup st receipt_id
  let po_qty := linesQtyDict po.lines
  let inv_qty := linesQtyDict inv.lines
  let rcpt_qty := linesQtyDict (ErpSim.rcptLines rcpt?)
  ((ErpSim.match_items po_qty inv_qty).filter
      (ErpSim.qty_fails po_qty inv_qty rcpt_qty rcpt?.isSome)).map
    (fun it =>
      { item_id := it, po := dictGet po_qty it,
        invoice := dictGet inv_qty it, received := dictGet rcpt_qty it })

/-- `status = "MATCH" if (amount_ok and not qty_mismatches) else
"MISMATCH"`. -/
def ErpSim.match_status (st : ErpState) (po : ErpPo) (inv : ErpInvoice)
    (receipt_id : Option String) : String :=
  if ErpSim.match_amount_ok po inv &&
      (ErpSim.match_mismatches st po inv receipt_id).isEmpty
  then "MATCH" else "MISMATCH"

/-- The PO after `match_three_way` stamps `last_three_way_match` and
refreshes `updated_ms`. -/
def ErpSim.match_stamped_po (st : ErpState) (po : ErpPo) (inv : ErpInvoice)
    (invoice_id : String) (receipt_id : Option String) : ErpPo :=
  { po with
    last_three_way_match := some
      { invoice_id := invoice_id, receipt_id := receipt_id,
        status := ErpSim.match_status st po inv receipt_id,
        time_ms := st.clock_ms },
    updated_ms := st.clock_ms }

/-- Body of `ErpSim.match_three_way` (see `ErpSim.rcptLookup` above for
the receipt guard `self.receipts.get(receipt_id) if receipt_id else
None`). -/
def ErpSim.match_three_way (st : ErpState) (po_id invoice_id : String)
    (receipt_id : Option String) : ErpState × Except String MatchResult :=
  match st.pos.lookup po_id, st.invoices.lookup invoice_id with
  | some po, some inv =>
    ({ st with
        pos := alUpdate po_id
          (ErpSim.match_stamped_po st po inv invoice_id receipt_id)
          st.pos },
     Except.ok
       { status := ErpSim.match_status st po inv receipt_id,
         amount_ok := ErpSim.match_amount_ok po inv,
         qty_mismatches := ErpSim.match_mismatches st po inv receipt_id,
         po_id := po_id, invoice_id := invoice_id,
         receipt_id := receipt_id })
  | _, _ => (st, Except.error "unknown_ref")

/-- Concrete ERP state: `PO-1` over item `A` (qty 2, $2000.00), a matching
invoice `INV-1`, a full receipt `RCPT-1`, nothing received yet. -/
def erpStateC2 : ErpState :=
  { pos := [("PO-1",
      { id := "PO-1", vendor := "MacroCompute", currency := "USD",
        status := "INVOICED", lines := [{ item_id := "A", qty := 2 }],
        amount_cents := 200000, created_ms := 0, updated_ms := 0,
        received_qty_by_item := [("A", 0)] })],
    invoices := [("INV-1",
      { id := "INV-1", po_id := "PO-1", vendor := "MacroCompute",
        status := "OPEN", lines := [{ item_id := "A", qty := 2 }],
        amount_cents := 200000, paid_cents := 0, time_ms := 0,
        updated_ms := 0 })],
    receipts := [("RCPT-1",
      { id := "RCPT-1", po_id := "PO-1",
        lines := [{ item_id := "A", qty := 2 }], time_ms := 0 })],
    po_seq := 2, inv_seq := 2, rcpt_seq := 2, clock_ms := 0 }

/-- Concrete ERP state: `PO-1` orders 2 of item `A`; nothing received. -/
def erpStateC9 : ErpState :=
  { pos := [("PO-1",
      { id := "PO-1", vendor := "MacroCompute", currency := "USD",
        status := "OPEN", lines := [{ item_id := "A", qty := 2 }],
        amount_cents := 200000, created_ms := 0, updated_ms := 0,
        received_qty_by_item := [("A", 0)] })],
    invoices := [], receipts := [],
    po_seq := 2, inv_seq := 1, rcpt_seq := 1, clock_ms := 0 }

/-! ## Connector policy gate and runtime (`connectors/policy.py`,
`connectors/runtime.py`)

Payload dictionaries, their redaction (`redact_mapping`) and the receipt
JSONL file are not embedded: no claim depends on payload contents, and the
receipt fields below are the ones the claims inspect. -/

/-- `AdapterMode`. -/
inductive AdapterMode where
  | sim
  | replay
  | live
  deriving Repr, DecidableEq

/-- `OperationClass`. -/
inductive OperationClass where
  | read
  | write_safe
  | write_risky
  deriving Repr, DecidableEq

/-- `PolicyDecisionAction`. -/
inductive PolicyDecisionAction where
  | allow
  | deny
  | require_approval
  deriving Repr, DecidableEq

/-- `PolicyDecision` (metadata dict omitted). -/
structure PolicyDecision where
  action : PolicyDecisionAction
  reason : String := ""
  deriving Repr, DecidableEq

/-- `DefaultPolicyGate` configuration (`Set[str] | None` blocklist). -/
structure DefaultPolicyGate where
  live_allow_write_safe : Bool := false
  live_allow_write_risky : Bool := false
  blocked_operations : Option (List String) := none
  deriving Repr, DecidableEq

/-- `ConnectorRequest` (service as its `ServiceName.value` string;
payload/metadata dicts omitted). -/
structure ConnectorRequest where
  request_id : String
  service : String
  operation : String
  operation_class : OperationClass
  actor : String := "agent"
  deriving Repr, DecidableEq

/-- `DefaultPolicyGate.evaluate(request, mode)` (policy.py:51-94): the
blocklist is consulted first in every mode; then non-live modes allow
everything; live reads allow; live safe writes allow or require approval
by flag; live risky writes allow or deny by flag; anything else falls
back to allow. -/
def DefaultPolicyGate.evaluate (gate : DefaultPolicyGate)
    (request : ConnectorRequest) (mode : AdapterMode) : PolicyDecision :=
  let blocked := gate.blocked_operations.getD []
  let operation_id := request.service ++ "." ++ request.operation
  if operation_id ∈ blocked then
    { action := PolicyDecisionAction.deny,
      reason := "blocked operation: " ++ operation_id }
  else if mode ≠ AdapterMode.live then
    { action := PolicyDecisionAction.allow, reason := "non-live mode" }
  else if request.operation_class = OperationClass.read then
    { action := PolicyDecisionAction.allow, reason := "live read allowed" }
  else if request.operation_class = OperationClass.write_safe then
    (if gate.live_allow_write_safe then
      { action := PolicyDecisionAction.allow,
        reason := "live safe-write allowed" }
     else
      { action := PolicyDecisionAction.require_approval,
        reason := "live safe-write requires approval" })
  else if request.operation_class = OperationClass.write_risky then
    (if gate.live_allow_write_risky then
      { action := PolicyDecisionAction.allow,
        reason := "live risky-write allowed" }
     else
      { action := PolicyDecisionAction.deny,
        reason := "live risky-write blocked" })
  else
    { action := PolicyDecisionAction.allow, reason := "fallback allow" }

/-- A `ToolRoute` of `TOOL_ROUTES`. -/
structure ToolRoute where
  service : String
  operation : String
  operation_class : OperationClass
  deriving Repr, DecidableEq

/-- A `ConnectorReceipt` (redacted payload echoes omitted). -/
structure ConnectorReceipt where
  request_id : String
  mode : AdapterMode
  service : String
  operation : String
  operation_class : OperationClass
  policy_action : PolicyDecisionAction
  ok : Bool
  status_code : Int
  latency_ms : Int
  time_ms : Int
  deriving Repr, DecidableEq

/-- A `ConnectorError` raised as `ConnectorInvocationError`. -/
structure ConnectorError where
  code : String
  message : String
  status_code : Int
  deriving Repr, DecidableEq

/-- A `ConnectorResult` (data/raw payloads omitted). -/
structure ConnectorResult where
  ok : Bool := true
  status_code : Int := 200
  error : Option ConnectorError := none
  latency_ms : Int := 0
  deriving Repr, DecidableEq

/-- Mutable state of `ConnectorRuntime`. -/
structure RuntimeState where
  mode : AdapterMode
  gate : DefaultPolicyGate
  request_seq : Nat
  receipts : List ConnectorReceipt
  deriving Repr, DecidableEq

/-- `f"{seq:06d}"`. -/
def zeroPad6 (n : Nat) : String :=
  ⟨List.replicate (6 - (natDecimalChars n).length) '0' ++ natDecimalChars n⟩

/-- `ConnectorRuntime._next_request_id(service)`. -/
def ConnectorRuntime.next_request_id (st : RuntimeState) (service : String) :
    RuntimeState × String :=
  ({ st with request_seq := st.request_seq + 1 },
   service ++ "-" ++ zeroPad6 (st.request_seq + 1))

/-- The receipt built by `ConnectorRuntime._record_receipt` (None result:
ok/200/latency 0). -/
def ConnectorRuntime.build_receipt (st : RuntimeState)
    (request : ConnectorRequest) (policy_action : PolicyDecisionAction)
    (result : Option ConnectorResult) (time_ms : Int) : ConnectorReceipt :=
  { request_id := request.request_id, mode := st.mode,
    service := request.service, operation := request.operation,
    operation_class := request.operation_class,
    policy_action := policy_action,
    ok := match result with | none => true | some r => r.ok,
    status_code := match result with | none => 200 | some r => r.status_code,
    latency_ms := match result with | none => 0 | some r => r.latency_ms,
    time_ms := time_ms }

/-- `ConnectorRuntime._record_receipt`: append, then keep the last 200. -/
def ConnectorRuntime.record_receipt (st : RuntimeState)
    (request : ConnectorRequest) (policy_action : PolicyDecisionAction)
    (result : Option ConnectorResult) (time_ms : Int) : RuntimeState :=
  let receipts1 := st.receipts ++
    [ConnectorRuntime.build_receipt st request policy_action result time_ms]
  { st with receipts :=
      if receipts1.length > 200 then receipts1.drop (receipts1.length - 200)
      else receipts1 }

/-- The `ConnectorRequest` built for a resolved route inside
`invoke_tool`: `_next_request_id` has bumped `request_seq` and produced
`f"{service}-{seq:06d}"`. -/
def ConnectorRuntime.reqOf (st : RuntimeState) (route : ToolRoute)
    (actor : String) : ConnectorRequest :=
  { request_id := route.service ++ "-" ++ zeroPad6 (st.request_seq + 1),
    service := route.service, operation := route.operation,
    operation_class := route.operation_class, actor := actor }

/-- The runtime state after `_next_request_id` ran. -/
def ConnectorRuntime.bumped (st : RuntimeState) : RuntimeState :=
  { st with request_seq := st.request_seq + 1 }

/-- The policy decision taken inside `invoke_tool` for a resolved route
(the bumped state has the same gate and mode as `st`). -/
def ConnectorRuntime.decisionOf (st : RuntimeState) (route : ToolRoute)
    (actor : String) : PolicyDecision :=
  DefaultPolicyGate.evaluate st.gate (ConnectorRuntime.reqOf st route actor)
    st.mode

/-- The body of `invoke_tool` once the tool's route is known (the
`some route` branch of the `TOOL_ROUTES` lookup): adapter presence check,
request construction (`_next_request_id` bumps the sequence), policy
decision, receipt, raise-or-execute.  `execute` is a pure function, so
repeating `execute (reqOf …)` denotes the single adapter call of the
source. -/
def ConnectorRuntime.invoke_routed (st : RuntimeState)
    (adapters : String → Bool) (execute : ConnectorRequest → ConnectorResult)
    (route : ToolRoute) (actor : String) (time_ms : Int) :
    RuntimeState × Except ConnectorError ConnectorResult :=
  if ¬ adapters route.service then
    (st, Except.error
      { code := "service_unavailable",
        message := "No adapter registered for service: " ++ route.service,
        status_code := 503 })
  else if (ConnectorRuntime.decisionOf st route actor).action =
      PolicyDecisionAction.deny then
    (ConnectorRuntime.record_receipt (ConnectorRuntime.bumped st)
        (ConnectorRuntime.reqOf st route actor)
        PolicyDecisionAction.deny none time_ms,
     Except.error
       { code := "policy.denied",
         message := if (ConnectorRuntime.decisionOf st route actor).reason = ""
           then "operation denied by policy gate"
           else (ConnectorRuntime.decisionOf st route actor).reason,
         status_code := 403 })
  else if (ConnectorRuntime.decisionOf st route actor).action =
      PolicyDecisionAction.require_approval then
    (ConnectorRuntime.record_receipt (ConnectorRuntime.bumped st)
        (ConnectorRuntime.reqOf st route actor)
        PolicyDecisionAction.require_approval none time_ms,
     Except.error
       { code := "policy.approval_required",
         message := if (ConnectorRuntime.decisionOf st route actor).reason = ""
           then "operation requires human approval"
           else (ConnectorRuntime.decisionOf st route actor).reason,
         status_code := 403 })
  else
    (ConnectorRuntime.record_receipt (ConnectorRuntime.bumped st)
        (ConnectorRuntime.reqOf st route actor)
        (ConnectorRuntime.decisionOf st route actor).action
        (some (execute (ConnectorRuntime.reqOf st route actor))) time_ms,
     if ¬ (execute (ConnectorRuntime.reqOf st route actor)).ok then
       Except.error
         (match (execute (ConnectorRuntime.reqOf st route actor)).error with
          | some err =>
            { code := err.code, message := err.message,
              status_code := if (execute (ConnectorRuntime.reqOf st route
                  actor)).status_code = 0 then 400
                else (execute (ConnectorRuntime.reqOf st route
                  actor)).status_code }
          | none =>
            { code := "connector.failed", message := "adapter call failed",
              status_code := if (execute (ConnectorRuntime.reqOf st route
                  actor)).status_code = 0 then 400
                else (execute (ConnectorRuntime.reqOf st route
                  actor)).status_code })
     else Except.ok (execute (ConnectorRuntime.reqOf st route actor)))

/-- `ConnectorRuntime.invoke_tool(tool, args, actor=…, time_ms=…)`
(runtime.py:49-131), with `TOOL_ROUTES` as `routes`, adapter-triplet
presence as `adapters`, and the mode-selected adapter's `execute` as a
function parameter.  Policy DENY / REQUIRE_APPROVAL append a receipt and
raise `policy.denied` / `policy.approval_required` before any adapter
runs; on ALLOW the adapter runs and a receipt is appended afterwards. -/
def ConnectorRuntime.invoke_tool (st : RuntimeState)
    (routes : String → Option ToolRoute) (adapters : String → Bool)
    (execute : ConnectorRequest → ConnectorResult) (tool : String)
    (actor : String) (time_ms : Int) :
    RuntimeState × Except ConnectorError ConnectorResult :=
  match routes tool with
  | none =>
    (st, Except.error
      { code := "unknown_tool",
        message := "Unsupported connector tool: " ++ tool,
        status_code := 404 })
  | some route =>
    ConnectorRuntime.invoke_routed st adapters execute route actor time_ms

/-- Concrete request/gate: `mail.compose` (write_safe) with
`mail.compose` blocklisted. -/
def reqC7 : ConnectorRequest :=
  { request_id := "mail-000001", service := "mail", operation := "compose",
    operation_class := OperationClass.write_safe }

/-- Gate with `mail.compose` in `VEI_LIVE_BLOCK_OPS`. -/
def gateC7 : DefaultPolicyGate :=
  { live_allow_write_safe := false, live_allow_write_risky := false,
    blocked_operations := some ["mail.compose"] }

/-! ## Corpus generator (`corpus/generator.py`)

`generate_corpus` drives Python's Mersenne-Twister `random.Random(seed)`,
which is a deterministic function of the seed; the RNG itself is not
embedded.  What is embedded is the part of every generated workflow that
reads outside the `(seed, environment_count, scenarios_per_environment)`
parameters: `_crm_tool_name` consults the `VEI_CRM_ALIAS_PACKS`
environment variable, and its results are placed verbatim into each
workflow's `metadata` (generator.py:233-239) and, for some families, into
the step tool names. -/

/-- Python `s.strip()` on a character list. -/
def pyStrip (l : List Char) : List Char :=
  ((l.dropWhile Char.isWhitespace).reverse.dropWhile
    Char.isWhitespace).reverse

/-- Python `s.split(",")`: splits on every comma; `""` gives `[""]`. -/
def pySplitComma : List Char → List (List Char)
  | [] => [[]]
  | c :: rest =>
    if c = ',' then [] :: pySplitComma rest
    else
      match pySplitComma rest with
      | [] => [[c]]
      | g :: gs => (c :: g) :: gs

/-- `[pack.strip().lower() for pack in packs_env.split(",") if
pack.strip()]` with `packs_env = os.environ.get("VEI_CRM_ALIAS_PACKS",
"hubspot,salesforce")`. -/
def crmPacks (packsEnvVar : Option String) : List (List Char) :=
  ((pySplitComma (packsEnvVar.getD "hubspot,salesforce").data).filter
      (fun p => !(pyStrip p).isEmpty)).map
    (fun p => (pyStrip p).map Char.toLower)

/-- `_crm_tool_name(operation)` (generator.py:304-319), with the early
returns flattened into an if-else cascade; note the dependence on the
`VEI_CRM_ALIAS_PACKS` environment variable via `crmPacks`. -/
def crm_tool_name (operation : String) (packsEnvVar : Option String) :
    String :=
  if "salesforce".data ∈ crmPacks packsEnvVar ∧ operation = "deal_create"
  then "salesforce.opportunity.create"
  else if "salesforce".data ∈ crmPacks packsEnvVar
      ∧ operation = "activity_log"
  then "salesforce.activity.log"
  else if "hubspot".data ∈ crmPacks packsEnvVar ∧ operation = "deal_create"
  then "hubspot.deals.create"
  else if "hubspot".data ∈ crmPacks packsEnvVar ∧ operation = "activity_log"
  then "hubspot.activities.log"
  else if operation = "deal_create" then "crm.create_deal"
  else "crm.log_activity"

/-- The `metadata` dict of a generated workflow spec
(generator.py:233-239). -/
structure WorkflowMetadata where
  environment_id : String
  scenario_seed : Nat
  workflow_family : String
  crm_deal_create_tool : String
  crm_activity_tool : String
  deriving Repr, DecidableEq

/-- The metadata `_generate_workflow_spec` serializes into every workflow:
environment id, scenario seed and family are functions of the seeded RNG
draws and indices; the two CRM tool names come from `_crm_tool_name` and
hence from the environment variable. -/
def generate_workflow_metadata (environment_id : String) (seed : Nat)
    (family : String) (packsEnvVar : Option String) : WorkflowMetadata :=
  { environment_id := environment_id, scenario_seed := seed,
    workflow_family := family,
    crm_deal_create_tool := crm_tool_name "deal_create" packsEnvVar,
    crm_activity_tool := crm_tool_name "activity_log" packsEnvVar }

/-! Basic facts about the decimal printer/parser pair. -/

theorem digitChar_isDigit {d : Nat} (hd : d < 10) :
    (Nat.digitChar d).isDigit = true := by
  interval_cases d <;> decide

theorem digitChar_toNat {d : Nat} (hd : d < 10) :
    (Nat.digitChar d).toNat = 48 + d := by
  interval_cases d <;> decide

theorem natDecimalCharsAux_ne_nil :
    ∀ (fuel n : Nat), n < fuel → natDecimalCharsAux fuel n ≠ [] := by
  intro fuel
  induction fuel with
  | zero => intro n h; omega
  | succ fuel _ =>
    intro n _
    unfold natDecimalCharsAux
    split <;> simp

theorem natDecimalCharsAux_all_digit :
    ∀ (fuel n : Nat), n < fuel →
      ∀ c ∈ natDecimalCharsAux fuel n, c.isDigit = true := by
  intro fuel
  induction fuel with
  | zero => intro n h; omega
  | succ fuel ih =>
    intro n h c hc
    unfold natDecimalCharsAux at hc
    by_cases h10 : n < 10
    · rw [if_pos h10] at hc
      simp only [List.mem_singleton] at hc
      subst hc
      exact digitChar_isDigit h10
    · rw [if_neg h10] at hc
      simp only [List.mem_append, List.mem_singleton] at hc
      rcases hc with hc | hc
      · exact ih (n / 10) (by omega) c hc
      · subst hc
        exact digitChar_isDigit (Nat.mod_lt _ (by omega))

theorem natDecimalCharsAux_fold :
    ∀ (fuel n : Nat), n < fuel → ∀ i : Nat,
      (natDecimalCharsAux fuel n).foldl (fun a c => 10 * a + (c.toNat - 48)) i
        = i * 10 ^ (natDecimalCharsAux fuel n).length + n := by
  intro fuel
  induction fuel with
  | zero => intro n h; omega
  | succ fuel ih =>
    intro n h i
    unfold natDecimalCharsAux
    by_cases h10 : n < 10
    · rw [if_pos h10]
      simp only [List.foldl_cons, List.foldl_nil, digitChar_toNat h10,
        List.length_singleton, pow_one]
      omega
    · rw [if_neg h10]
      rw [List.foldl_append]
      rw [ih (n / 10) (by omega) i]
      have hm : n % 10 < 10 := Nat.mod_lt _ (by omega)
      simp only [List.foldl_cons, List.foldl_nil, digitChar_toNat hm,
        List.length_append, List.length_singleton, pow_succ]
      have hmod : 48 + n % 10 - 48 = n % 10 := by omega
      rw [hmod]
      have hdm : 10 * (n / 10) + n % 10 = n := Nat.div_add_mod n 10
      calc 10 * (i * 10 ^ (natDecimalCharsAux fuel (n / 10)).length + n / 10)
            + n % 10
          = i * (10 ^ (natDecimalCharsAux fuel (n / 10)).length * 10) +
              (10 * (n / 10) + n % 10) := by ring
        _ = i * (10 ^ (natDecimalCharsAux fuel (n / 10)).length * 10) + n := by
              rw [hdm]

theorem natDecimalChars_ne_nil (n : Nat) : natDecimalChars n ≠ [] :=
  natDecimalCharsAux_ne_nil (n + 1) n (by omega)

theorem natDecimalChars_all_digit (n : Nat) :
    ∀ c ∈ natDecimalChars n, c.isDigit = true :=
  natDecimalCharsAux_all_digit (n + 1) n (by omega)

theorem decimalFold_from (i : Nat) (n : Nat) :
    (natDecimalChars n).foldl (fun a c => 10 * a + (c.toNat - 48)) i =
      i * 10 ^ (natDecimalChars n).length + n :=
  natDecimalCharsAux_fold (n + 1) n (by omega) i

theorem decimalFold_natDecimalChars (n : Nat) :
    decimalFold (natDecimalChars n) = n := by
  unfold decimalFold
  rw [decimalFold_from 0 n]
  simp

theorem pyDigitsVal_natDecimalChars (n : Nat) :
    pyDigitsVal (natDecimalChars n) = some n := by
  unfold pyDigitsVal
  rw [if_pos, decimalFold_natDecimalChars]
  have h1 := natDecimalChars_ne_nil n
  have h2 := natDecimalChars_all_digit n
  simp only [Bool.and_eq_true, List.all_eq_true, decide_eq_true_eq]
  constructor
  · simpa [List.isEmpty_iff] using h1
  · exact fun c hc => h2 c hc

theorem pyIntParse_cons (c : Char) (rest : List Char) :
    pyIntParse (c :: rest) =
      if c = '-' then (pyDigitsVal rest).map (fun v => -(v : Int))
      else if c = '+' then (pyDigitsVal rest).map (fun v => (v : Int))
      else (pyDigitsVal (c :: rest)).map (fun v => (v : Int)) := rfl

theorem pyIntParse_natDecimalChars (n : Nat) :
    pyIntParse (natDecimalChars n) = some (n : Int) := by
  obtain ⟨c, rest, hcr⟩ := List.exists_cons_of_ne_nil (natDecimalChars_ne_nil n)
  have hdig : c.isDigit = true := by
    apply natDecimalChars_all_digit n
    rw [hcr]; exact List.mem_cons_self _ _
  have hneg : c ≠ '-' := by
    intro h; subst h; simp [Char.isDigit] at hdig
  have hpos : c ≠ '+' := by
    intro h; subst h; simp [Char.isDigit] at hdig
  rw [hcr, pyIntParse_cons, if_neg hneg, if_neg hpos, ← hcr,
    pyDigitsVal_natDecimalChars]
  rfl

theorem decode_cursor_some (c : String) :
    decode_cursor (some c) =
      if c.data = [] then Except.ok 0
      else if ¬ pyStartsWith c.data "ofs:".data then
        Except.error "invalid_cursor"
      else
        match pyIntParse (splitAfterColon c.data) with
        | none => Except.error "invalid_cursor"
        | some v => Except.ok (max 0 v).toNat := rfl

theorem decode_encode_cursor (n : Nat) :
    decode_cursor (some (encode_cursor (n : Int))) = Except.ok n := by
  have hdata : (encode_cursor (n : Int)).data =
      'o' :: 'f' :: 's' :: ':' :: natDecimalChars n := by
    simp [encode_cursor]
  rw [decode_cursor_some, hdata]
  rw [if_neg (by simp)]
  have hpre : pyStartsWith ('o' :: 'f' :: 's' :: ':' :: natDecimalChars n)
      "ofs:".data = true := by
    simp [pyStartsWith, List.isPrefixOf]
  rw [if_neg (by simp [hpre])]
  have hsplit : splitAfterColon ('o' :: 'f' :: 's' :: ':' :: natDecimalChars n)
      = natDecimalChars n := by
    simp [splitAfterColon]
  rw [hsplit, pyIntParse_natDecimalChars]
  simp

theorem normalize_limit_none (default maxLimit : Int) :
    normalize_limit none default maxLimit = default := rfl

theorem normalize_limit_some (l default maxLimit : Int) :
    normalize_limit (some l) default maxLimit =
      if l < 1 then 1 else min maxLimit l := rfl

theorem one_le_normalized_limit (limit : Option Int) :
    1 ≤ (normalize_limit limit 25 200).toNat := by
  cases limit with
  | none => decide
  | some l =>
    rw [normalize_limit_some]
    by_cases h1 : l < 1
    · rw [if_pos h1]; decide
    · rw [if_neg h1]
      rcases le_or_lt (200 : Int) l with h2 | h2
      · rw [min_eq_left h2]; decide
      · rw [min_eq_right h2.le]; omega

theorem walk_pages_succ {α : Type} (rows : List α) (limit : Option Int)
    (fuel : Nat) (cursor : Option String) :
    walk_pages rows limit (fuel + 1) cursor =
      match page_rows rows limit cursor with
      | Except.error _ => []
      | Except.ok p =>
        match p.next_cursor with
        | none => [p]
        | some c => p :: walk_pages rows limit fuel (some c) := rfl

theorem walk_pages_ok_some {α : Type} (rows : List α) (limit : Option Int)
    (fuel : Nat) (cursor : Option String) (p : PageResult α) (c : String)
    (h : page_rows rows limit cursor = Except.ok p)
    (hn : p.next_cursor = some c) :
    walk_pages rows limit (fuel + 1) cursor =
      p :: walk_pages rows limit fuel (some c) := by
  rw [walk_pages_succ, h]
  show (match p.next_cursor with
        | none => [p]
        | some c => p :: walk_pages rows limit fuel (some c)) = _
  rw [hn]

theorem walk_pages_ok_none {α : Type} (rows : List α) (limit : Option Int)
    (fuel : Nat) (cursor : Option String) (p : PageResult α)
    (h : page_rows rows limit cursor = Except.ok p)
    (hn : p.next_cursor = none) :
    walk_pages rows limit (fuel + 1) cursor = [p] := by
  rw [walk_pages_succ, h]
  show (match p.next_cursor with
        | none => [p]
        | some c => p :: walk_pages rows limit fuel (some c)) = _
  rw [hn]

theorem page_rows_decoded {α : Type} (rows : List α) (limit : Option Int)
    (cursor : Option String) (start : Nat)
    (h : decode_cursor cursor = Except.ok start) :
    page_rows rows limit cursor =
      Except.ok (page_rows_at rows (normalize_limit limit 25 200).toNat start) := by
  unfold page_rows
  rw [h]
  rfl

theorem walk_pages_spec {α : Type} (rows : List α) (limit : Option Int) :
    ∀ (fuel : Nat) (cursor : Option String) (start : Nat),
      decode_cursor cursor = Except.ok start →
      rows.length - start < fuel →
      (((walk_pages rows limit fuel cursor).map PageResult.rows).flatten =
          rows.drop start)
      ∧ (∀ p ∈ walk_pages rows limit fuel cursor,
          p.total = rows.length ∧ p.count = p.rows.length) := by
  intro fuel
  induction fuel with
  | zero => intro cursor start _ hlt; omega
  | succ fuel ih =>
    intro cursor start hdec hlt
    have hpl := one_le_normalized_limit limit
    set pl := (normalize_limit limit 25 200).toNat with hplDef
    have hpage := page_rows_decoded rows limit cursor start hdec
    rw [← hplDef] at hpage
    by_cases hmore : start + pl < rows.length
    · have hnext : (page_rows_at rows pl start).next_cursor =
          some (encode_cursor ((start + pl : Nat) : Int)) := by
        simp [page_rows_at, hmore]
      have hwalk := walk_pages_ok_some rows limit fuel cursor _ _ hpage hnext
      obtain ⟨ihjoin, ihmem⟩ := ih (some (encode_cursor ((start + pl : Nat) : Int)))
        (start + pl) (decode_encode_cursor (start + pl)) (by omega)
      constructor
      · rw [hwalk]
        simp only [List.map_cons, List.flatten_cons]
        rw [ihjoin]
        show ((rows.drop start).take pl) ++ rows.drop (start + pl) = rows.drop start
        exact List.drop_take_append_drop rows start pl
      · rw [hwalk]
        intro p hp
        rcases List.mem_cons.mp hp with hp | hp
        · subst hp
          constructor <;> simp [page_rows_at]
        · exact ihmem p hp
    · have hnext : (page_rows_at rows pl start).next_cursor = none := by
        simp [page_rows_at, hmore]
      have hwalk := walk_pages_ok_none rows limit fuel cursor _ hpage hnext
      constructor
      · rw [hwalk]
        simp only [List.map_cons, List.map_nil, List.flatten_cons,
          List.flatten_nil, List.append_nil]
        show ((rows.drop start).take pl) = rows.drop start
        exact List.take_of_length_le (by simp; omega)
      · rw [hwalk]
        intro p hp
        simp only [List.mem_singleton] at hp
        subst hp
        constructor <;> simp [page_rows_at]

/-- Count field of `DatabaseSim.query` when no cursor is supplied. -/
theorem db_query_none_count {α : Type} (table : String) (rows : List α)
    (limit : Option Int) (offset : Int) :
    (DatabaseSim.query table rows limit offset none).map DbQueryResult.count =
      Except.ok ((rows.drop (max 0 offset).toNat).take
        (normalize_limit (some (limit.getD 20)) 20 200).toNat).length := rfl

/-- Evaluation of `TicketsSim._meta` when the metadata entry exists: the
eager default bumps the clock by 2 and the stored entry is returned. -/
theorem TicketsSim.ticket_meta_found (st : TicketsState) (ticket_id : String)
    (m : TicketMeta) (h : st.metadata.lookup ticket_id = some m) :
    TicketsSim.meta st ticket_id =
      ({ st with clock_ms := st.clock_ms + 2 }, m) := by
  unfold TicketsSim.meta TicketsSim.now_ms
  simp only [h]
  have harith : st.clock_ms + 1 + 1 = st.clock_ms + 2 := by omega
  rw [harith]

/-- Evaluation of `CalendarSim._meta` when the metadata entry exists. -/
theorem CalendarSim.meta_found (st : CalendarState) (event_id : String)
    (m : CalMeta) (h : st.metadata.lookup event_id = some m) :
    CalendarSim.meta st event_id =
      ({ st with clock_ms := st.clock_ms + 2 }, m) := by
  unfold CalendarSim.meta CalendarSim.now_ms
  simp only [h]
  have harith : st.clock_ms + 1 + 1 = st.clock_ms + 2 := by omega
  rw [harith]

/-- Unrolling of the ticket payload loop on a cons cell. -/
theorem TicketsSim.ticket_payloads_cons (st : TicketsState)
    (hd : String × Ticket) (rest : List (String × Ticket)) :
    TicketsSim.build_payloads st (hd :: rest) =
      ((TicketsSim.build_payloads
          (TicketsSim.ticket_payload st hd.2).1 rest).1,
       (TicketsSim.ticket_payload st hd.2).2 ::
         (TicketsSim.build_payloads
           (TicketsSim.ticket_payload st hd.2).1 rest).2) := rfl

/-- Unrolling of the event payload loop on a cons cell. -/
theorem CalendarSim.event_payloads_cons (st : CalendarState)
    (hd : String × CalendarEvent) (rest : List (String × CalendarEvent)) :
    CalendarSim.build_payloads st (hd :: rest) =
      ((CalendarSim.build_payloads
          (CalendarSim.event_payload st hd.2).1 rest).1,
       (CalendarSim.event_payload st hd.2).2 ::
         (CalendarSim.build_payloads
           (CalendarSim.event_payload st hd.2).1 rest).2) := rfl

/-- The payload loop of `TicketsSim.list` advances the private clock by 2
per stored ticket (one eager `_meta` default each) and changes nothing
else, provided every listed ticket already has a metadata entry. -/
theorem TicketsSim.ticket_payloads_state :
    ∀ (l : List (String × Ticket)) (st : TicketsState),
      (∀ p ∈ l, (st.metadata.lookup (p.2).ticket_id).isSome) →
      (TicketsSim.build_payloads st l).1 =
        { st with clock_ms := st.clock_ms + 2 * (l.length : Int) } := by
  intro l
  induction l with
  | nil =>
    intro st _
    show st = _
    have h : st.clock_ms +
        2 * ((List.length ([] : List (String × Ticket)) : Nat) : Int) =
        st.clock_ms := by simp
    rw [h]
  | cons hd rest ih =>
    intro st hmeta
    obtain ⟨m, hm⟩ := Option.isSome_iff_exists.mp
      (hmeta hd (List.mem_cons_self _ _))
    have h1 : (TicketsSim.ticket_payload st hd.2).1 =
        { st with clock_ms := st.clock_ms + 2 } := by
      show (TicketsSim.meta st hd.2.ticket_id).1 = _
      rw [TicketsSim.ticket_meta_found st hd.2.ticket_id m hm]
    have h2 := ih { st with clock_ms := st.clock_ms + 2 }
      (fun p hp => hmeta p (List.mem_cons_of_mem _ hp))
    show (TicketsSim.build_payloads
      (TicketsSim.ticket_payload st hd.2).1 rest).1 = _
    rw [h1, h2]
    have harith : ({ st with clock_ms := st.clock_ms + 2 } :
        TicketsState).clock_ms + 2 * ((rest.length : Nat) : Int) =
        st.clock_ms + 2 * (((hd :: rest).length : Nat) : Int) := by
      show st.clock_ms + 2 + 2 * ((rest.length : Nat) : Int) = _
      simp only [List.length_cons]
      omega
    rw [harith]

/-- The payload loop of `CalendarSim.list_events` advances the private
clock by 2 per stored event and changes nothing else, provided every
listed event already has a metadata entry. -/
theorem CalendarSim.event_payloads_state :
    ∀ (l : List (String × CalendarEvent)) (st : CalendarState),
      (∀ p ∈ l, (st.metadata.lookup (p.2).event_id).isSome) →
      (CalendarSim.build_payloads st l).1 =
        { st with clock_ms := st.clock_ms + 2 * (l.length : Int) } := by
  intro l
  induction l with
  | nil =>
    intro st _
    show st = _
    have h : st.clock_ms +
        2 * ((List.length ([] : List (String × CalendarEvent)) : Nat) : Int) =
        st.clock_ms := by simp
    rw [h]
  | cons hd rest ih =>
    intro st hmeta
    obtain ⟨m, hm⟩ := Option.isSome_iff_exists.mp
      (hmeta hd (List.mem_cons_self _ _))
    have h1 : (CalendarSim.event_payload st hd.2).1 =
        { st with clock_ms := st.clock_ms + 2 } := by
      show (CalendarSim.meta st hd.2.event_id).1 = _
      rw [CalendarSim.meta_found st hd.2.event_id m hm]
    have h2 := ih { st with clock_ms := st.clock_ms + 2 }
      (fun p hp => hmeta p (List.mem_cons_of_mem _ hp))
    show (CalendarSim.build_payloads
      (CalendarSim.event_payload st hd.2).1 rest).1 = _
    rw [h1, h2]
    have harith : ({ st with clock_ms := st.clock_ms + 2 } :
        CalendarState).clock_ms + 2 * ((rest.length : Nat) : Int) =
        st.clock_ms + 2 * (((hd :: rest).length : Nat) : Int) := by
      show st.clock_ms + 2 + 2 * ((rest.length : Nat) : Int) = _
      simp only [List.length_cons]
      omega
    rw [harith]

/-- An undecodable cursor makes `decode_cursor` raise `invalid_cursor`. -/
theorem decode_cursor_error (c : String) (hne : c.data ≠ [])
    (hbad : ¬ pyStartsWith c.data "ofs:".data
      ∨ pyIntParse (splitAfterColon c.data) = none) :
    decode_cursor (some c) = Except.error "invalid_cursor" := by
  rw [decode_cursor_some, if_neg hne]
  by_cases hsw : pyStartsWith c.data "ofs:".data
  · rw [if_neg (by simp [hsw])]
    rcases hbad with h | h
    · exact absurd (by simpa using hsw) h
    · rw [h]
  · rw [if_pos (by simp [hsw])]

/-! ## Claims C4, C5, C6 -/

/-- C5 (confirmed).  For every list-style tool over a fixed twin state
(the filtered-and-sorted row list `rows`) and every limit, walking
`next_cursor` from a cursorless first call until `next_cursor` is absent
yields pages whose concatenation is exactly `rows` (no duplicates, no
omissions), whose counts sum to `total`, and each page reports
`total = rows.length`. -/
theorem claim_C5_pagination_totality {α : Type} (rows : List α)
    (limit : Option Int) :
    (((walk_pages rows limit (rows.length + 1) none).map
        PageResult.rows).flatten = rows)
    ∧ ((walk_pages rows limit (rows.length + 1) none).map
        PageResult.count).sum = rows.length
    ∧ ∀ p ∈ walk_pages rows limit (rows.length + 1) none,
        p.total = rows.length := by
  obtain ⟨hjoin, hmem⟩ :=
    walk_pages_spec rows limit (rows.length + 1) none 0 rfl (by omega)
  rw [List.drop_zero] at hjoin
  refine ⟨hjoin, ?_, fun p hp => (hmem p hp).1⟩
  have hc : (walk_pages rows limit (rows.length + 1) none).map PageResult.count
      = ((walk_pages rows limit (rows.length + 1) none).map
          PageResult.rows).map List.length := by
    rw [List.map_map]
    exact List.map_congr_left (fun p hp => (hmem p hp).2)
  rw [hc, ← List.length_flatten, hjoin]

/-- C4 counterexample.  Two failures of the original claim.  First, the
cursor `"ofs:-5"` does not match `^ofs:\d+$` (the claim's own example),
yet `_decode_cursor` accepts it — Python `int("-5")` parses and
`max(0, -5)` clamps to 0 — so a list call returns the first page instead
of raising `invalid_cursor`.  Second, an invalid-cursor call does NOT
leave the twin's state unchanged: `tickets.list` and
`calendar.list_events` build their row payloads — each `_meta` call
eagerly evaluating two `_now_ms()` defaults — before `_decode_cursor`
runs, so the call raises `invalid_cursor` with the private clock already
advanced by 2 per stored row. -/
theorem claim_C4_counterexample :
    decode_cursor (some "ofs:-5") = Except.ok 0
    ∧ page_rows ["r1", "r2"] none (some "ofs:-5") =
        Except.ok { rows := ["r1", "r2"], count := 2, total := 2,
                    next_cursor := none, has_more := false }
    ∧ (TicketsSim.list ticketsStateC1 none none none none none
        (some "page:2") "updated_ms" "desc").2 =
        Except.error "invalid_cursor"
    ∧ (TicketsSim.list ticketsStateC1 none none none none none
        (some "page:2") "updated_ms" "desc").1.clock_ms =
        ticketsStateC1.clock_ms + 2
    ∧ (CalendarSim.list_events calendarStateC10 none none none none none
        (some "page:2") "asc").2 = Except.error "invalid_cursor"
    ∧ (CalendarSim.list_events calendarStateC10 none none none none none
        (some "page:2") "asc").1.clock_ms = calendarStateC10.clock_ms + 2
    ∧ ticketsStateC1.clock_ms + 2 ≠ ticketsStateC1.clock_ms := by
  refine ⟨rfl, rfl, rfl, by decide, rfl, by decide, by decide⟩

/-- C4 amended.  A nonempty cursor raises the service-scoped
`invalid_cursor` error iff it does not start with `"ofs:"` or its suffix
after the first colon fails integer parsing (optionally signed decimal);
cursors whose suffix parses — including negative offsets such as
`"ofs:-5"` — are accepted, with the offset clamped below at 0.  An
invalid-cursor call leaves every store of the twin (tickets/events,
metadata, responses, sequence counters) unchanged, but it is not
mutation-free: `tickets.list` and `calendar.list_events` build their row
payloads via `_meta` — whose eagerly evaluated `setdefault` defaults
advance the twin's private clock by 2 per stored row — before
`_decode_cursor` runs, so the resulting state is exactly the input with
the clock advanced by `2 * (number of stored rows)`. -/
theorem claim_C4_cursor_decode (c : String) :
    ((∃ e, decode_cursor (some c) = Except.error e) ↔
      (c.data ≠ [] ∧ (¬ pyStartsWith c.data "ofs:".data
        ∨ pyIntParse (splitAfterColon c.data) = none)))
    ∧ (∀ v : Int, c.data ≠ [] → pyStartsWith c.data "ofs:".data →
        pyIntParse (splitAfterColon c.data) = some v →
        decode_cursor (some c) = Except.ok (max 0 v).toNat)
    ∧ (∀ (st : TicketsState)
         (status assignee priority query : Option String)
         (limit : Option Int) (sort_by sort_dir : String),
        (∀ p ∈ st.tickets, (st.metadata.lookup (p.2).ticket_id).isSome) →
        c.data ≠ [] →
        (¬ pyStartsWith c.data "ofs:".data
          ∨ pyIntParse (splitAfterColon c.data) = none) →
        TicketsSim.list st status assignee priority query limit (some c)
            sort_by sort_dir =
          ({ st with clock_ms :=
               st.clock_ms + 2 * (st.tickets.length : Int) },
           Except.error "invalid_cursor"))
    ∧ (∀ (st : CalendarState) (attendee status : Option String)
         (starts_after_ms ends_before_ms : Option Int)
         (limit : Option Int) (sort_dir : String),
        (∀ p ∈ st.events, (st.metadata.lookup (p.2).event_id).isSome) →
        c.data ≠ [] →
        (¬ pyStartsWith c.data "ofs:".data
          ∨ pyIntParse (splitAfterColon c.data) = none) →
        CalendarSim.list_events st attendee status starts_after_ms
            ends_before_ms limit (some c) sort_dir =
          ({ st with clock_ms :=
               st.clock_ms + 2 * (st.events.length : Int) },
           Except.error "invalid_cursor")) := by
  refine ⟨?_, ?_, ?_, ?_⟩
  · rw [decode_cursor_some]
    by_cases h1 : c.data = []
    · simp [h1]
    · rw [if_neg h1]
      by_cases h2 : pyStartsWith c.data "ofs:".data
      · rw [if_neg (by simp [h2])]
        cases h3 : pyIntParse (splitAfterColon c.data) <;> simp [h1, h2, h3]
      · rw [if_pos (by simp [h2])]
        simp [h1, h2]
  · intro v h1 h2 h3
    rw [decode_cursor_some, if_neg h1, if_neg (by simp [h2]), h3]
  · intro st status assignee priority query limit sort_by sort_dir
      hmeta hne hbad
    have hdec := decode_cursor_error c hne hbad
    unfold TicketsSim.list
    rw [if_neg (by simp [TicketsSim.list_is_legacy]), hdec]
    show ((TicketsSim.build_payloads st st.tickets).1,
      Except.error "invalid_cursor") = _
    rw [TicketsSim.ticket_payloads_state st.tickets st hmeta]
  · intro st attendee status starts_after_ms ends_before_ms limit sort_dir
      hmeta hne hbad
    have hdec := decode_cursor_error c hne hbad
    unfold CalendarSim.list_events
    rw [if_neg (by simp [CalendarSim.list_is_legacy]), hdec]
    show ((CalendarSim.build_payloads st st.events).1,
      Except.error "invalid_cursor") = _
    rw [CalendarSim.event_payloads_state st.events st hmeta]

/-- Closed witness for `claim_C4_cursor_decode`: the decode conjunct at
the cursor `"ofs:7"`, the tickets conjunct at `ticketsStateC1` and the
calendar conjunct at `calendarStateC10`, both with the rejected cursor
`"page:2"`. -/
theorem claim_C4_cursor_decode_witness :
    decode_cursor (some "ofs:7") = Except.ok 7
    ∧ TicketsSim.list ticketsStateC1 none none none none none
        (some "page:2") "updated_ms" "desc" =
        ({ ticketsStateC1 with clock_ms :=
             ticketsStateC1.clock_ms +
               2 * (ticketsStateC1.tickets.length : Int) },
         Except.error "invalid_cursor")
    ∧ CalendarSim.list_events calendarStateC10 none none none none none
        (some "page:2") "asc" =
        ({ calendarStateC10 with clock_ms :=
             calendarStateC10.clock_ms +
               2 * (calendarStateC10.events.length : Int) },
         Except.error "invalid_cursor") := by
  refine ⟨?_, ?_, ?_⟩
  · exact (claim_C4_cursor_decode "ofs:7").2.1 7 (by decide) (by decide)
      (by decide)
  · exact (claim_C4_cursor_decode "page:2").2.2.1 ticketsStateC1 none none
      none none none "updated_ms" "desc" (by decide) (by decide)
      (Or.inl (by decide))
  · exact (claim_C4_cursor_decode "page:2").2.2.2 calendarStateC10 none
      none none none none "asc" (by decide) (by decide)
      (Or.inl (by decide))

/-- C6 counterexample.  `db.query` with `limit` omitted pages with the
signature default 20, not 25: on a 25-row table it returns 20 rows. -/
theorem claim_C6_counterexample :
    (DatabaseSim.query "approval_audit" (List.replicate 25 (0 : Nat))
        none 0 none).map DbQueryResult.count = Except.ok 20
    ∧ (20 : Nat) ≠ 25 := by
  constructor
  · rfl
  · decide

/-- C6 amended.  Every list endpoint clamps a supplied `limit` to
`[1, 200]`.  The omitted-limit default is 25 for the `_page_rows`-based
endpoints (tickets/calendar/erp/db.list_tables), but `db.query` defaults
to 20 (its Python signature default). -/
theorem claim_C6_limit_clamp :
    (∀ l : Int, normalize_limit (some l) 25 200 = max 1 (min 200 l))
    ∧ normalize_limit none 25 200 = 25
    ∧ (∀ l : Int, normalize_limit (some l) 20 200 = max 1 (min 200 l))
    ∧ (∀ (α : Type) (rows : List α), 25 ≤ rows.length →
        (page_rows rows none none).map PageResult.count = Except.ok 25)
    ∧ (∀ (α : Type) (table : String) (rows : List α), 20 ≤ rows.length →
        (DatabaseSim.query table rows none 0 none).map DbQueryResult.count =
          Except.ok 20) := by
  have hclamp : ∀ (d l : Int), normalize_limit (some l) d 200 =
      max 1 (min 200 l) := by
    intro d l
    rw [normalize_limit_some]
    by_cases h1 : l < 1
    · rw [if_pos h1]
      rcases le_or_lt (200 : Int) l with h2 | h2
      · omega
      · rw [min_eq_right h2.le]; omega
    · rw [if_neg h1]
      rcases le_or_lt (200 : Int) l with h2 | h2
      · rw [min_eq_left h2]; omega
      · rw [min_eq_right h2.le]; omega
  refine ⟨hclamp 25, rfl, hclamp 20, ?_, ?_⟩
  · intro α rows h
    have hpage : page_rows rows none none = Except.ok (page_rows_at rows 25 0) :=
      page_rows_decoded rows none none 0 rfl
    rw [hpage]
    show Except.ok ((rows.drop 0).take 25).length =
      (Except.ok 25 : Except String Nat)
    simp only [List.drop_zero, List.length_take]
    rw [Nat.min_eq_left h]
  · intro α table rows h
    rw [db_query_none_count]
    show Except.ok ((rows.drop 0).take 20).length =
      (Except.ok 20 : Except String Nat)
    simp only [List.drop_zero, List.length_take]
    rw [Nat.min_eq_left h]

/-- Closed witness for `claim_C4_cursor_decode` companions: see
`claim_C6_limit_clamp` applied at a 25-row table. -/
theorem claim_C6_limit_clamp_witness :
    (page_rows (List.replicate 30 (0 : Nat)) none none).map PageResult.count =
      Except.ok 25 := by
  exact (claim_C6_limit_clamp.2.2.2.1) Nat (List.replicate 30 0) (by decide)

theorem alUpdate_lookup {β : Type} (k : String) (v : β)
    (l : List (String × β)) : (alUpdate k v l).lookup k = some v := by
  induction l with
  | nil => simp [alUpdate]
  | cons p rest ih =>
    obtain ⟨k', v'⟩ := p
    by_cases h : k' = k
    · simp [alUpdate, h]
    · have hbeq : (k == k') = false := beq_eq_false_iff_ne.mpr (Ne.symm h)
      simp [alUpdate, if_neg h, List.lookup, hbeq, ih]

/-- Branch evaluation of `TicketsSim.transition` once the ticket lookup
has resolved. -/
theorem TicketsSim.transition_found (st : TicketsState)
    (ticket_id status : String) (t : Ticket)
    (h : st.tickets.lookup ticket_id = some t) :
    TicketsSim.transition st ticket_id status =
      (let target := pyStripLower status
       if ¬ target ∈ TicketsSim.VALID_STATUSES then
         (st, Except.error "invalid_ticket_status")
       else
         let current := pyStripLower t.status
         if target ≠ current ∧ ¬ target ∈ TicketsSim.ALLOWED_TRANSITIONS current
         then (st, Except.error "invalid_transition")
         else
           let ticket1 :=
             { t with
               status := target,
               history := t.history ++ [{ status := target }] }
           let (st1, now) := TicketsSim.now_ms st
           let (st2, m) := TicketsSim.meta st1 ticket_id
           let st3 := { st2 with
             metadata := alUpdate ticket_id { m with updated_ms := now }
               st2.metadata }
           let st4 := { st3 with
             tickets := alUpdate ticket_id ticket1 st3.tickets }
           (st4, Except.ok { ticket_id := ticket_id, status := target })) := by
  unfold TicketsSim.transition
  rw [h]

/-- C1 counterexample.  `tickets.transition("TCK-1", "open")` on a ticket
whose status is already `open` succeeds (the code short-circuits on
`target != current`), yet the edge `open -> open` is not in the fixed
transition table — the claim says exactly the table edges succeed. -/
theorem claim_C1_counterexample :
    (TicketsSim.transition ticketsStateC1 "TCK-1" "open").2 =
        Except.ok { ticket_id := "TCK-1", status := "open" }
    ∧ ¬ "open" ∈ TicketsSim.ALLOWED_TRANSITIONS "open" := by
  constructor
  · rfl
  · decide

/-- C1 amended.  For a known ticket and a target status in the valid set,
`transition` succeeds iff the target equals the current status (a no-op
self-transition) or the edge `(current, target)` is in the fixed table;
on success the stored ticket's status becomes the target with a history
entry appended; otherwise it raises `invalid_transition` and the whole
state — in particular the ticket's status — is unchanged. -/
theorem claim_C1_transition_table (st : TicketsState)
    (ticket_id status : String) (t : Ticket)
    (hfind : st.tickets.lookup ticket_id = some t)
    (hvalid : pyStripLower status ∈ TicketsSim.VALID_STATUSES) :
    ((pyStripLower status = pyStripLower t.status
      ∨ pyStripLower status ∈
          TicketsSim.ALLOWED_TRANSITIONS (pyStripLower t.status)) →
      ((TicketsSim.transition st ticket_id status).2 =
          Except.ok { ticket_id := ticket_id, status := pyStripLower status }
        ∧ (TicketsSim.transition st ticket_id status).1.tickets.lookup
            ticket_id =
          some { t with
                 status := pyStripLower status,
                 history := t.history ++
                   [{ status := pyStripLower status }] }))
    ∧ (¬ (pyStripLower status = pyStripLower t.status
        ∨ pyStripLower status ∈
            TicketsSim.ALLOWED_TRANSITIONS (pyStripLower t.status)) →
       TicketsSim.transition st ticket_id status =
         (st, Except.error "invalid_transition")) := by
  rw [TicketsSim.transition_found st ticket_id status t hfind]
  rw [if_neg (not_not_intro hvalid)]
  constructor
  · intro hok
    have hcond : ¬ (pyStripLower status ≠ pyStripLower t.status
        ∧ ¬ pyStripLower status ∈
            TicketsSim.ALLOWED_TRANSITIONS (pyStripLower t.status)) := by
      rcases hok with h | h
      · exact fun hc => hc.1 h
      · exact fun hc => hc.2 h
    rw [if_neg hcond]
    exact ⟨rfl, alUpdate_lookup _ _ _⟩
  · intro hbad
    have hcond : pyStripLower status ≠ pyStripLower t.status
        ∧ ¬ pyStripLower status ∈
            TicketsSim.ALLOWED_TRANSITIONS (pyStripLower t.status) :=
      ⟨fun h => hbad (Or.inl h), fun h => hbad (Or.inr h)⟩
    rw [if_pos hcond]

/-- Closed witness for `claim_C1_transition_table`: the table edge
`open -> in_progress` succeeds on `ticketsStateC1`. -/
theorem claim_C1_transition_table_witness :
    (TicketsSim.transition ticketsStateC1 "TCK-1" "in_progress").2 =
      Except.ok { ticket_id := "TCK-1", status := "in_progress" } := by
  have h := claim_C1_transition_table ticketsStateC1 "TCK-1" "in_progress"
    { ticket_id := "TCK-1", title := "Laptop request", status := "open",
      history := [{ status := "open" }] } (by rfl) (by decide)
  have hres := (h.1 (Or.inr (by decide))).1
  have hnorm : pyStripLower "in_progress" = "in_progress" := by decide
  rw [hnorm] at hres
  exact hres

/-- Evaluation of `CalendarSim.cancel_event` once the event lookup has
resolved. -/
theorem CalendarSim.cancel_event_found (st : CalendarState)
    (event_id : String) (reason : Option String) (e : CalendarEvent)
    (h : st.events.lookup event_id = some e) :
    CalendarSim.cancel_event st event_id reason =
      (let (st1, m) := CalendarSim.meta st event_id
       if m.status = "CANCELED" then
         (st1, Except.ok
           { event_id := event_id, status := "CANCELED", changed := false })
       else
         let reason1 :=
           match reason with
           | none => "manual_cancel"
           | some r => if r.data = [] then "manual_cancel" else r
         let (st2, now) := CalendarSim.now_ms st1
         let m1 :=
           { m with
             status := "CANCELED",
             cancel_reason := some reason1,
             version := m.version + 1,
             updated_ms := now }
         ({ st2 with metadata := alUpdate event_id m1 st2.metadata },
          Except.ok
            { event_id := event_id, status := "CANCELED", changed := true })) := by
  unfold CalendarSim.cancel_event
  rw [h]

/-- C10 (confirmed).  `cancel_event` is idempotent: on an event whose
status is already `CANCELED` it does not raise, returns
`{event_id, status := "CANCELED", changed := false}`, and leaves the whole
metadata map — hence the event's `version`, `updated_ms` and
`cancel_reason` — unchanged (the resulting state differs from the input
only in the private clock, which `_meta`'s eager default advances by 2). -/
theorem claim_C10_cancel_idempotent (st : CalendarState) (event_id : String)
    (reason : Option String) (e : CalendarEvent) (m : CalMeta)
    (hev : st.events.lookup event_id = some e)
    (hmeta : st.metadata.lookup event_id = some m)
    (hcanceled : m.status = "CANCELED") :
    (CalendarSim.cancel_event st event_id reason).2 =
        Except.ok { event_id := event_id, status := "CANCELED",
                    changed := false }
    ∧ (CalendarSim.cancel_event st event_id reason).1 =
        { st with clock_ms := st.clock_ms + 2 }
    ∧ (CalendarSim.cancel_event st event_id reason).1.metadata =
        st.metadata := by
  rw [CalendarSim.cancel_event_found st event_id reason e hev,
    CalendarSim.meta_found st event_id m hmeta]
  refine ⟨?_, ?_, ?_⟩ <;> simp [hcanceled]

/-- Closed witness for `claim_C10_cancel_idempotent` on
`calendarStateC10`. -/
theorem claim_C10_cancel_idempotent_witness :
    (CalendarSim.cancel_event calendarStateC10 "EVT-1" none).2 =
      Except.ok { event_id := "EVT-1", status := "CANCELED",
                  changed := false } := by
  exact (claim_C10_cancel_idempotent calendarStateC10 "EVT-1" none
    { event_id := "EVT-1", title := "Vendor sync", start_ms := 0,
      end_ms := 3600000 }
    { status := "CANCELED", organizer := "agent", version := 2,
      created_ms := 1700000100001, updated_ms := 1700000100002,
      cancel_reason := some "manual_cancel" }
    (by rfl) (by rfl) (by rfl)).1

/-- Branch evaluation of `ErpSim.match_three_way` once PO and invoice have
resolved. -/
theorem ErpSim.match_three_way_found (st : ErpState)
    (po_id invoice_id : String) (receipt_id : Option String) (po : ErpPo)
    (inv : ErpInvoice) (hpo : st.pos.lookup po_id = some po)
    (hinv : st.invoices.lookup invoice_id = some inv) :
    ErpSim.match_three_way st po_id invoice_id receipt_id =
      ({ st with
          pos := alUpdate po_id
            (ErpSim.match_stamped_po st po inv invoice_id receipt_id)
            st.pos },
       Except.ok
         { status := ErpSim.match_status st po inv receipt_id,
           amount_ok := ErpSim.match_amount_ok po inv,
           qty_mismatches := ErpSim.match_mismatches st po inv receipt_id,
           po_id := po_id, invoice_id := invoice_id,
           receipt_id := receipt_id }) := by
  unfold ErpSim.match_three_way
  rw [hpo, hinv]

/-- The per-item failure test is `false` exactly when the PO and invoice
quantities agree and, if a receipt was found, the invoiced quantity does
not exceed the received one. -/
theorem ErpSim.qty_fails_false_iff (po_qty inv_qty rcpt_qty :
    List (String × Int)) (present : Bool) (it : String) :
    ErpSim.qty_fails po_qty inv_qty rcpt_qty present it = false ↔
      (dictGet po_qty it = dictGet inv_qty it
        ∧ (present = true → dictGet inv_qty it ≤ dictGet rcpt_qty it)) := by
  unfold ErpSim.qty_fails
  cases present <;> simp [not_lt]

/-- C2 counterexample.  With a receipt id supplied (`"RCPT-404"`) that
names no stored receipt, `match_three_way` silently drops the receipt
check and returns MATCH, although the invoiced quantity (2) exceeds the
received quantity (0 — nothing under that id) — the claim requires
`invoice_qty ≤ received_qty` whenever a receipt id is supplied. -/
theorem claim_C2_counterexample :
    (ErpSim.match_three_way erpStateC2 "PO-1" "INV-1"
        (some "RCPT-404")).2.map MatchResult.status = Except.ok "MATCH"
    ∧ erpStateC2.receipts.lookup "RCPT-404" = none
    ∧ ¬ ((2 : Int) ≤ 0) := by
  refine ⟨rfl, rfl, by decide⟩

/-- C2 amended.  When the PO and invoice exist, `match_three_way` returns
`status = MATCH` iff the two amounts differ by at most one cent and every
item of the PO/invoice item set has `po_qty = invoice_qty` and — when the
supplied receipt id resolves to a stored receipt — `invoice_qty ≤
received_qty`; `amount_ok` reports exactly the amount comparison, and
`qty_mismatches` lists exactly the items failing the quantity test. -/
theorem claim_C2_match_iff (st : ErpState) (po_id invoice_id : String)
    (receipt_id : Option String) (po : ErpPo) (inv : ErpInvoice)
    (hpo : st.pos.lookup po_id = some po)
    (hinv : st.invoices.lookup invoice_id = some inv) :
    (ErpSim.match_three_way st po_id invoice_id receipt_id).2 =
      Except.ok
        { status := ErpSim.match_status st po inv receipt_id,
          amount_ok := ErpSim.match_amount_ok po inv,
          qty_mismatches := ErpSim.match_mismatches st po inv receipt_id,
          po_id := po_id, invoice_id := invoice_id,
          receipt_id := receipt_id }
    ∧ (ErpSim.match_amount_ok po inv = true ↔
        (po.amount_cents - inv.amount_cents).natAbs ≤ 1)
    ∧ (ErpSim.match_status st po inv receipt_id = "MATCH" ↔
        ((po.amount_cents - inv.amount_cents).natAbs ≤ 1
          ∧ ∀ it ∈ ErpSim.match_items (linesQtyDict po.lines)
              (linesQtyDict inv.lines),
              dictGet (linesQtyDict po.lines) it =
                dictGet (linesQtyDict inv.lines) it
              ∧ ((ErpSim.rcptLookup st receipt_id).isSome = true →
                  dictGet (linesQtyDict inv.lines) it ≤
                    dictGet (linesQtyDict
                      (ErpSim.rcptLines (ErpSim.rcptLookup st receipt_id)))
                      it)))
    ∧ (ErpSim.match_mismatches st po inv receipt_id).map QtyMismatch.item_id
        = (ErpSim.match_items (linesQtyDict po.lines)
            (linesQtyDict inv.lines)).filter
          (ErpSim.qty_fails (linesQtyDict po.lines) (linesQtyDict inv.lines)
            (linesQtyDict (ErpSim.rcptLines (ErpSim.rcptLookup st receipt_id)))
            (ErpSim.rcptLookup st receipt_id).isSome) := by
  refine ⟨?_, ?_, ?_, ?_⟩
  · rw [ErpSim.match_three_way_found st po_id invoice_id receipt_id po inv
      hpo hinv]
  · simp [ErpSim.match_amount_ok]
  · have hempty : (ErpSim.match_mismatches st po inv receipt_id = []) ↔
        (∀ it ∈ ErpSim.match_items (linesQtyDict po.lines)
            (linesQtyDict inv.lines),
          ErpSim.qty_fails (linesQtyDict po.lines) (linesQtyDict inv.lines)
            (linesQtyDict (ErpSim.rcptLines (ErpSim.rcptLookup st receipt_id)))
            (ErpSim.rcptLookup st receipt_id).isSome it = false) := by
      unfold ErpSim.match_mismatches
      simp [List.filter_eq_nil_iff]
    have hiff : ErpSim.match_status st po inv receipt_id = "MATCH" ↔
        (ErpSim.match_amount_ok po inv &&
          (ErpSim.match_mismatches st po inv receipt_id).isEmpty) = true := by
      unfold ErpSim.match_status
      by_cases hcond : (ErpSim.match_amount_ok po inv &&
          (ErpSim.match_mismatches st po inv receipt_id).isEmpty) = true
      · rw [if_pos hcond]
        exact ⟨fun _ => hcond, fun _ => rfl⟩
      · rw [if_neg hcond]
        exact ⟨fun h => absurd h (by decide), fun h => absurd h hcond⟩
    rw [hiff, Bool.and_eq_true, List.isEmpty_iff]
    rw [hempty]
    constructor
    · rintro ⟨hA, hM⟩
      refine ⟨by simpa [ErpSim.match_amount_ok] using hA, fun it hit => ?_⟩
      exact (ErpSim.qty_fails_false_iff _ _ _ _ it).mp (hM it hit)
    · rintro ⟨hA, hM⟩
      refine ⟨by simpa [ErpSim.match_amount_ok] using hA, fun it hit => ?_⟩
      exact (ErpSim.qty_fails_false_iff _ _ _ _ it).mpr (hM it hit)
  · unfold ErpSim.match_mismatches
    rw [List.map_map]
    exact List.map_id' _

/-- Closed witness for `claim_C2_match_iff`: with the stored receipt
`RCPT-1` supplied, the concrete state matches. -/
theorem claim_C2_match_iff_witness :
    (ErpSim.match_three_way erpStateC2 "PO-1" "INV-1"
        (some "RCPT-1")).2.map MatchResult.status = Except.ok "MATCH" := by
  obtain ⟨hres, _, hS, _⟩ := claim_C2_match_iff erpStateC2 "PO-1" "INV-1"
    (some "RCPT-1")
    { id := "PO-1", vendor := "MacroCompute", currency := "USD",
      status := "INVOICED", lines := [{ item_id := "A", qty := 2 }],
      amount_cents := 200000, created_ms := 0, updated_ms := 0,
      received_qty_by_item := [("A", 0)] }
    { id := "INV-1", po_id := "PO-1", vendor := "MacroCompute",
      status := "OPEN", lines := [{ item_id := "A", qty := 2 }],
      amount_cents := 200000, paid_cents := 0, time_ms := 0,
      updated_ms := 0 }
    rfl rfl
  rw [hres]
  have hmatch := hS.mpr (by decide)
  simp [Except.map, hmatch]

/-- Evaluation of `ErpSim.receive_goods` when the PO is unknown. -/
theorem ErpSim.receive_goods_unknown (st : ErpState) (po_id : String)
    (lines : List ErpLine) (h : st.pos.lookup po_id = none) :
    ErpSim.receive_goods st po_id lines =
      (st, Except.error "unknown_po") := by
  unfold ErpSim.receive_goods
  rw [h]

/-- Branch evaluation of `ErpSim.receive_goods` once the PO has resolved:
the receipt id is drawn, the sequence incremented, then the validation
loop decides between an error (state keeps only the sequence bump) and
storing the receipt and updated PO. -/
theorem ErpSim.receive_goods_found (st : ErpState) (po_id : String)
    (lines : List ErpLine) (po : ErpPo)
    (hpo : st.pos.lookup po_id = some po) :
    ErpSim.receive_goods st po_id lines =
      (match ErpSim.receive_goods_loop (linesQtyDict po.lines) lines
          po.received_qty_by_item with
       | Except.error e =>
         ({ st with rcpt_seq := st.rcpt_seq + 1 }, Except.error e)
       | Except.ok received =>
         ({ st with
             rcpt_seq := st.rcpt_seq + 1,
             receipts := alUpdate ("RCPT-" ++ natDecimal st.rcpt_seq)
               { id := "RCPT-" ++ natDecimal st.rcpt_seq, po_id := po_id,
                 lines := lines, time_ms := st.clock_ms }
               st.receipts,
             pos := alUpdate po_id
               { po with
                 received_qty_by_item := received,
                 status := if (linesQtyDict po.lines).all
                     (fun p => decide (dictGet received p.1 ≥ p.2))
                   then "RECEIVED" else "PARTIALLY_RECEIVED",
                 updated_ms := st.clock_ms }
               st.pos },
          Except.ok
            { id := "RCPT-" ++ natDecimal st.rcpt_seq,
              po_status := if (linesQtyDict po.lines).all
                  (fun p => decide (dictGet received p.1 ≥ p.2))
                then "RECEIVED" else "PARTIALLY_RECEIVED" })) := by
  unfold ErpSim.receive_goods
  rw [hpo]

/-- C9 counterexample.  Receiving 3 of item `A` against a PO ordering 2
raises `qty_exceeds_po`, but `_rcpt_seq` was already incremented, so the
next successful receipt is issued `RCPT-2` — had the failed call never
happened it would have been `RCPT-1`. -/
theorem claim_C9_counterexample :
    (ErpSim.receive_goods erpStateC9 "PO-1"
        [{ item_id := "A", qty := 3 }]).2 = Except.error "qty_exceeds_po"
    ∧ (ErpSim.receive_goods
        (ErpSim.receive_goods erpStateC9 "PO-1"
          [{ item_id := "A", qty := 3 }]).1
        "PO-1" [{ item_id := "A", qty := 2 }]).2.map ReceiveResult.id =
      Except.ok "RCPT-2"
    ∧ (ErpSim.receive_goods erpStateC9 "PO-1"
        [{ item_id := "A", qty := 2 }]).2.map ReceiveResult.id =
      Except.ok "RCPT-1"
    ∧ ("RCPT-2" : String) ≠ "RCPT-1" := by
  refine ⟨rfl, rfl, rfl, by decide⟩

/-- C9 amended.  A `receive_goods` call that fails with `qty_exceeds_po`
stores no goods receipt and leaves every PO (status and received
quantities) and the invoice map unchanged — but it does consume a receipt
id: `_rcpt_seq` advances by one, so the next successful receipt's
identifier differs from the no-failed-call run. -/
theorem claim_C9_receive_atomic (st : ErpState) (po_id : String)
    (lines : List ErpLine)
    (herr : (ErpSim.receive_goods st po_id lines).2 =
      Except.error "qty_exceeds_po") :
    (ErpSim.receive_goods st po_id lines).1.receipts = st.receipts
    ∧ (ErpSim.receive_goods st po_id lines).1.pos = st.pos
    ∧ (ErpSim.receive_goods st po_id lines).1.invoices = st.invoices
    ∧ (ErpSim.receive_goods st po_id lines).1.rcpt_seq = st.rcpt_seq + 1 := by
  cases hpo : st.pos.lookup po_id with
  | none =>
    rw [ErpSim.receive_goods_unknown st po_id lines hpo] at herr
    simp at herr
  | some po =>
    rw [ErpSim.receive_goods_found st po_id lines po hpo] at herr ⊢
    cases hloop : ErpSim.receive_goods_loop (linesQtyDict po.lines) lines
        po.received_qty_by_item with
    | error e => exact ⟨rfl, rfl, rfl, rfl⟩
    | ok received =>
      rw [hloop] at herr
      exact Except.noConfusion herr

/-- Closed witness for `claim_C9_receive_atomic` on `erpStateC9`. -/
theorem claim_C9_receive_atomic_witness :
    (ErpSim.receive_goods erpStateC9 "PO-1"
        [{ item_id := "A", qty := 3 }]).1.rcpt_seq = erpStateC9.rcpt_seq + 1 := by
  exact (claim_C9_receive_atomic erpStateC9 "PO-1"
    [{ item_id := "A", qty := 3 }] (by rfl)).2.2.2

/-- C7 counterexample.  In `sim` mode (non-live) a blocklisted operation
is DENIED, not ALLOWED: the blocklist check precedes the mode check. -/
theorem claim_C7_counterexample :
    (DefaultPolicyGate.evaluate gateC7 reqC7 AdapterMode.sim).action =
      PolicyDecisionAction.deny
    ∧ AdapterMode.sim ≠ AdapterMode.live
    ∧ PolicyDecisionAction.deny ≠ PolicyDecisionAction.allow := by
  refine ⟨rfl, by decide, by decide⟩

/-- C7 amended.  In every non-live mode, `evaluate` returns ALLOW (reason
"non-live mode") for every request whose `service.operation` id is not in
the configured blocklist; a blocklisted operation is DENIED in every mode,
live or not. -/
theorem claim_C7_nonlive_allow (gate : DefaultPolicyGate)
    (request : ConnectorRequest) (mode : AdapterMode)
    (hmode : mode ≠ AdapterMode.live) :
    (¬ (request.service ++ "." ++ request.operation) ∈
        gate.blocked_operations.getD [] →
      DefaultPolicyGate.evaluate gate request mode =
        { action := PolicyDecisionAction.allow, reason := "non-live mode" })
    ∧ ((request.service ++ "." ++ request.operation) ∈
        gate.blocked_operations.getD [] →
      (DefaultPolicyGate.evaluate gate request mode).action =
        PolicyDecisionAction.deny) := by
  constructor
  · intro hnb
    unfold DefaultPolicyGate.evaluate
    rw [if_neg hnb, if_pos hmode]
  · intro hb
    unfold DefaultPolicyGate.evaluate
    rw [if_pos hb]

/-- Closed witness for `claim_C7_nonlive_allow`: an unblocked read in
replay mode is allowed. -/
theorem claim_C7_nonlive_allow_witness :
    DefaultPolicyGate.evaluate { }
      { request_id := "mail-000001", service := "mail", operation := "list",
        operation_class := OperationClass.read }
      AdapterMode.replay =
      { action := PolicyDecisionAction.allow, reason := "non-live mode" } := by
  exact (claim_C7_nonlive_allow { }
    { request_id := "mail-000001", service := "mail", operation := "list",
      operation_class := OperationClass.read }
    AdapterMode.replay (by decide)).1 (by decide)

/-- `evaluate` in live mode on an unblocked safe write with the allow flag
off: REQUIRE_APPROVAL. -/
theorem evaluate_live_safe (gate : DefaultPolicyGate)
    (request : ConnectorRequest)
    (hnb : ¬ (request.service ++ "." ++ request.operation) ∈
      gate.blocked_operations.getD [])
    (hclass : request.operation_class = OperationClass.write_safe)
    (hsafe : gate.live_allow_write_safe = false) :
    DefaultPolicyGate.evaluate gate request AdapterMode.live =
      { action := PolicyDecisionAction.require_approval,
        reason := "live safe-write requires approval" } := by
  unfold DefaultPolicyGate.evaluate
  rw [if_neg hnb, if_neg (not_not_intro rfl),
    if_neg (by rw [hclass]; decide), if_pos hclass, hsafe]
  rfl

/-- `evaluate` in live mode on an unblocked risky write with the allow
flag off: DENY. -/
theorem evaluate_live_risky (gate : DefaultPolicyGate)
    (request : ConnectorRequest)
    (hnb : ¬ (request.service ++ "." ++ request.operation) ∈
      gate.blocked_operations.getD [])
    (hclass : request.operation_class = OperationClass.write_risky)
    (hrisky : gate.live_allow_write_risky = false) :
    DefaultPolicyGate.evaluate gate request AdapterMode.live =
      { action := PolicyDecisionAction.deny,
        reason := "live risky-write blocked" } := by
  unfold DefaultPolicyGate.evaluate
  rw [if_neg hnb, if_neg (not_not_intro rfl),
    if_neg (by rw [hclass]; decide), if_neg (by rw [hclass]; decide),
    if_pos hclass, hrisky]
  rfl

/-- The last receipt after `_record_receipt` is the one just appended
(truncation to the last 200 never discards the newest entry). -/
theorem record_receipt_last (st : RuntimeState) (request : ConnectorRequest)
    (policy_action : PolicyDecisionAction) (result : Option ConnectorResult)
    (time_ms : Int) :
    (ConnectorRuntime.record_receipt st request policy_action result
        time_ms).receipts.getLast? =
      some (ConnectorRuntime.build_receipt st request policy_action result
        time_ms) := by
  have key : ∀ (l : List ConnectorReceipt) (b : ConnectorReceipt),
      (if (l ++ [b]).length > 200 then
        (l ++ [b]).drop ((l ++ [b]).length - 200)
      else (l ++ [b])).getLast? = some b := by
    intro l b
    by_cases h : (l ++ [b]).length > 200
    · rw [if_pos h, List.drop_append_of_le_length
        (by simp only [List.length_append, List.length_singleton]; omega)]
      exact List.getLast?_concat _
    · rw [if_neg h]
      exact List.getLast?_concat _
  exact key st.receipts _

/-- Evaluation of `invoke_tool` when the policy decision is
REQUIRE_APPROVAL: a receipt is recorded and `policy.approval_required`
raised; no adapter runs. -/
theorem ConnectorRuntime.invoke_tool_require_approval (st : RuntimeState)
    (routes : String → Option ToolRoute) (adapters : String → Bool)
    (execute : ConnectorRequest → ConnectorResult) (tool : String)
    (actor : String) (time_ms : Int) (route : ToolRoute) (reasonStr : String)
    (hroute : routes tool = some route)
    (hadapter : adapters route.service = true)
    (hdec : ConnectorRuntime.decisionOf st route actor =
      { action := PolicyDecisionAction.require_approval,
        reason := reasonStr }) :
    ConnectorRuntime.invoke_tool st routes adapters execute tool actor
        time_ms =
      (ConnectorRuntime.record_receipt (ConnectorRuntime.bumped st)
         (ConnectorRuntime.reqOf st route actor)
         PolicyDecisionAction.require_approval none time_ms,
       Except.error
         { code := "policy.approval_required",
           message := if reasonStr = ""
             then "operation requires human approval" else reasonStr,
           status_code := 403 }) := by
  have hstep : ConnectorRuntime.invoke_tool st routes adapters execute tool
      actor time_ms =
      ConnectorRuntime.invoke_routed st adapters execute route actor
        time_ms := by
    unfold ConnectorRuntime.invoke_tool
    rw [hroute]
  rw [hstep]
  unfold ConnectorRuntime.invoke_routed
  rw [if_neg (not_not_intro hadapter), hdec]
  rw [if_neg (fun h => PolicyDecisionAction.noConfusion h), if_pos rfl]

/-- Evaluation of `invoke_tool` when the policy decision is DENY. -/
theorem ConnectorRuntime.invoke_tool_deny (st : RuntimeState)
    (routes : String → Option ToolRoute) (adapters : String → Bool)
    (execute : ConnectorRequest → ConnectorResult) (tool : String)
    (actor : String) (time_ms : Int) (route : ToolRoute) (reasonStr : String)
    (hroute : routes tool = some route)
    (hadapter : adapters route.service = true)
    (hdec : ConnectorRuntime.decisionOf st route actor =
      { action := PolicyDecisionAction.deny, reason := reasonStr }) :
    ConnectorRuntime.invoke_tool st routes adapters execute tool actor
        time_ms =
      (ConnectorRuntime.record_receipt (ConnectorRuntime.bumped st)
         (ConnectorRuntime.reqOf st route actor)
         PolicyDecisionAction.deny none time_ms,
       Except.error
         { code := "policy.denied",
           message := if reasonStr = ""
             then "operation denied by policy gate" else reasonStr,
           status_code := 403 }) := by
  have hstep : ConnectorRuntime.invoke_tool st routes adapters execute tool
      actor time_ms =
      ConnectorRuntime.invoke_routed st adapters execute route actor
        time_ms := by
    unfold ConnectorRuntime.invoke_tool
    rw [hroute]
  rw [hstep]
  unfold ConnectorRuntime.invoke_routed
  rw [if_neg (not_not_intro hadapter), hdec]
  rw [if_pos rfl]

/-- C3 (confirmed).  In live mode with both allow flags false and the
tool's operation not blocklisted, `invoke_tool` on a `write_safe` route
raises `policy.approval_required` and on a `write_risky` route raises
`policy.denied`; in both cases the receipt recording the policy action
(REQUIRE_APPROVAL resp. DENY) is the last receipt of the resulting state,
appended before the error is raised and before any adapter runs. -/
theorem claim_C3_policy_gating (st : RuntimeState)
    (routes : String → Option ToolRoute) (adapters : String → Bool)
    (execute : ConnectorRequest → ConnectorResult) (tool : String)
    (actor : String) (time_ms : Int) (route : ToolRoute)
    (hroute : routes tool = some route)
    (hadapter : adapters route.service = true)
    (hmode : st.mode = AdapterMode.live)
    (hsafe : st.gate.live_allow_write_safe = false)
    (hrisky : st.gate.live_allow_write_risky = false)
    (hnb : ¬ (route.service ++ "." ++ route.operation) ∈
      st.gate.blocked_operations.getD []) :
    (route.operation_class = OperationClass.write_safe →
      (ConnectorRuntime.invoke_tool st routes adapters execute tool actor
          time_ms).2 =
        Except.error
          { code := "policy.approval_required",
            message := "live safe-write requires approval",
            status_code := 403 }
      ∧ ((ConnectorRuntime.invoke_tool st routes adapters execute tool actor
          time_ms).1.receipts.getLast?.map ConnectorReceipt.policy_action =
        some PolicyDecisionAction.require_approval))
    ∧ (route.operation_class = OperationClass.write_risky →
      (ConnectorRuntime.invoke_tool st routes adapters execute tool actor
          time_ms).2 =
        Except.error
          { code := "policy.denied",
            message := "live risky-write blocked",
            status_code := 403 }
      ∧ ((ConnectorRuntime.invoke_tool st routes adapters execute tool actor
          time_ms).1.receipts.getLast?.map ConnectorReceipt.policy_action =
        some PolicyDecisionAction.deny)) := by
  constructor
  · intro hclass
    have hdec := evaluate_live_safe st.gate
      (ConnectorRuntime.reqOf st route actor) hnb hclass hsafe
    rw [← hmode] at hdec
    rw [ConnectorRuntime.invoke_tool_require_approval st routes adapters
      execute tool actor time_ms route "live safe-write requires approval"
      hroute hadapter hdec]
    constructor
    · rfl
    · show ((ConnectorRuntime.record_receipt (ConnectorRuntime.bumped st)
          (ConnectorRuntime.reqOf st route actor)
          PolicyDecisionAction.require_approval none
          time_ms).receipts.getLast?).map ConnectorReceipt.policy_action =
        some PolicyDecisionAction.require_approval
      rw [record_receipt_last]
      rfl
  · intro hclass
    have hdec := evaluate_live_risky st.gate
      (ConnectorRuntime.reqOf st route actor) hnb hclass hrisky
    rw [← hmode] at hdec
    rw [ConnectorRuntime.invoke_tool_deny st routes adapters
      execute tool actor time_ms route "live risky-write blocked"
      hroute hadapter hdec]
    constructor
    · rfl
    · show ((ConnectorRuntime.record_receipt (ConnectorRuntime.bumped st)
          (ConnectorRuntime.reqOf st route actor)
          PolicyDecisionAction.deny none
          time_ms).receipts.getLast?).map ConnectorReceipt.policy_action =
        some PolicyDecisionAction.deny
      rw [record_receipt_last]
      rfl

/-- Closed witness for `claim_C3_policy_gating`: `mail.compose`
(write_safe) in live mode with both flags false. -/
theorem claim_C3_policy_gating_witness :
    (ConnectorRuntime.invoke_tool
        { mode := AdapterMode.live, gate := { }, request_seq := 0,
          receipts := [] }
        (fun t => if t = "mail.compose" then
          some { service := "mail", operation := "compose",
                 operation_class := OperationClass.write_safe }
          else none)
        (fun _ => true) (fun _ => { }) "mail.compose" "agent" 0).2 =
      Except.error
        { code := "policy.approval_required",
          message := "live safe-write requires approval",
          status_code := 403 } := by
  exact ((claim_C3_policy_gating
    { mode := AdapterMode.live, gate := { }, request_seq := 0,
      receipts := [] }
    (fun t => if t = "mail.compose" then
      some { service := "mail", operation := "compose",
             operation_class := OperationClass.write_safe }
      else none)
    (fun _ => true) (fun _ => { }) "mail.compose" "agent" 0
    { service := "mail", operation := "compose",
      operation_class := OperationClass.write_safe }
    (by decide) rfl rfl rfl rfl (by decide)).1 rfl).1

/-- C8 counterexample.  Two runs of `generate_corpus` with identical
`(seed, environment_count, scenarios_per_environment)` but different
`VEI_CRM_ALIAS_PACKS` environments serialize different workflow metadata
(`hubspot.deals.create` vs `salesforce.opportunity.create`), so the output
is not a function of only those three parameters. -/
theorem claim_C8_counterexample :
    generate_workflow_metadata "ENV-0001" 42042 "procurement_quote"
        (some "hubspot") ≠
      generate_workflow_metadata "ENV-0001" 42042 "procurement_quote" none
    ∧ crm_tool_name "deal_create" (some "hubspot") = "hubspot.deals.create"
    ∧ crm_tool_name "deal_create" none = "salesforce.opportunity.create" := by
  refine ⟨by decide, rfl, rfl⟩

/-- C8 amended.  `generate_corpus` additionally depends on the
`VEI_CRM_ALIAS_PACKS` environment variable (read by `_crm_tool_name`);
the dependence factors through the parsed pack list, so two environments
that parse to the same packs — and in particular two runs in the same
environment — produce identical workflow metadata for identical
`(seed, environment_count, scenarios_per_environment)`. -/
theorem claim_C8_env_determinism (env1 env2 : Option String)
    (envId : String) (seed : Nat) (family : String)
    (h : crmPacks env1 = crmPacks env2) :
    generate_workflow_metadata envId seed family env1 =
      generate_workflow_metadata envId seed family env2 := by
  unfold generate_workflow_metadata crm_tool_name
  rw [h]

/-- Closed witness for `claim_C8_env_determinism`: an environment value
differing only by case and spacing parses to the default packs. -/
theorem claim_C8_env_determinism_witness :
    generate_workflow_metadata "ENV-0001" 7 "sales_pipeline"
        (some " HubSpot , SALESFORCE ") =
      generate_workflow_metadata "ENV-0001" 7 "sales_pipeline" none := by
  exact claim_C8_env_determinism (some " HubSpot , SALESFORCE ") none
    "ENV-0001" 7 "sales_pipeline" (by decide)

end VEI

